import Mathlib

/-!
Verification of the node-checker `BlockingRunner` orchestrator
(`ecosystem/node-checker/src/runner/blocking_runner.rs`).

The runner is shallowly embedded as a deterministic Lean function.  All
external collaborators (the node-identity evaluator, the two metric
collectors, the metrics parser, and the per-variant evaluators) are
supplied through an `Env` record of response functions, and every awaited
external call is logged in an event trace together with the logical time
at which it starts.  Time is a `Nat` (seconds); each event consumes a
duration chosen by the environment, and `tokio::time::sleep_until` is
modelled as advancing the clock to the deadline (a no-op when the clock
is already past it).
-/

namespace NodeChecker

/-- Which node a fetch talks to: the trusted baseline or the target. -/
inductive Side
  | baseline
  | target
deriving DecidableEq

/-- Finding produced by an evaluator.  Modelled from the spec: one scored
result (score in [0,100]) with an explanation; the concrete
`EvaluationResult` type lives outside the given source file. -/
structure Evaluation where
  score : Nat
  explanation : String
deriving DecidableEq

/-- Final report of a run.  Modelled from the spec: an ordered collection
of findings, built exactly once at run completion. -/
structure EvaluationSummary where
  evaluation_results : List Evaluation
deriving DecidableEq

/-- Counterpart of `EvaluationSummary::from(Vec<EvaluationResult>)`:
the summary keeps the findings in the order they were produced. -/
def EvaluationSummary.fromResults (evaluation_results : List Evaluation) :
    EvaluationSummary :=
  { evaluation_results := evaluation_results }

/-- Target address, as in `configuration::NodeAddress` (only its identity
matters here). -/
structure NodeAddress where
  url : String
deriving DecidableEq

/-- Identity fingerprint of the baseline node (`server::NodeInformation`).
Modelled from the spec: a fingerprint held immutably by the runner. -/
structure NodeInformation where
  fingerprint : String
deriving DecidableEq

/-- Structured system information returned by
`collect_system_information`; opaque to the orchestrator. -/
structure SystemInformation where
  info : String
deriving DecidableEq

/-- Parsed metrics snapshot (`prometheus_parse::Scrape`); opaque to the
orchestrator, produced only by the parser collaborator. -/
structure Scrape where
  samples : List (String × Int)
deriving DecidableEq

/-- Input of the NodeIdentity / Tps / Latency evaluators
(`DirectEvaluatorInput`). -/
structure DirectEvaluatorInput where
  baseline_node_information : NodeInformation
  target_node_address : NodeAddress
deriving DecidableEq

/-- Input of the Metrics evaluator (`MetricsEvaluatorInput`): the two
time-separated snapshots of each side. -/
structure MetricsEvaluatorInput where
  previous_baseline_metrics : Scrape
  previous_target_metrics : Scrape
  latest_baseline_metrics : Scrape
  latest_target_metrics : Scrape
deriving DecidableEq

/-- Input of the SystemInformation evaluator
(`SystemInformationEvaluatorInput`). -/
structure SystemInformationEvaluatorInput where
  baseline_system_information : SystemInformation
  target_system_information : SystemInformation
deriving DecidableEq

/-- Closed set of configured evaluator variants (`EvaluatorType`).
Each variant owns one evaluator instance; instances are identified here
by a numeric id, their behaviour is supplied by the environment. -/
inductive EvaluatorType
  | Tps (id : Nat)
  | Metrics (id : Nat)
  | SystemInformation (id : Nat)
  | Latency (id : Nat)
deriving DecidableEq

/-- Error taxonomy of the runner (`RunnerError`).  Modelled from the
spec: one kind per failing stage, the enum itself lives outside the
given source file but every constructor is applied in it. -/
inductive RunnerError
  | NodeIdentityEvaluatorError (e : String)
  | MetricCollectorError (e : String)
  | ParseMetricsError (e : String)
  | TpsEvaluatorError (e : String)
  | MetricEvaluatorError (e : String)
  | SystemInformationEvaluatorError (e : String)
  | LatencyEvaluatorError (e : String)
deriving DecidableEq

/-- Observable external interactions of one run, in program order. -/
inductive Event
  | evaluateNodeIdentity
  | collectSystemInformation (side : Side)
  | collectMetrics (side : Side)
  | parseMetrics (side : Side)
  | evaluateTps (id : Nat)
  | evaluateMetrics (id : Nat)
  | evaluateSystemInformation (id : Nat)
  | evaluateLatency (id : Nat)
  | sleepUntil (deadline : Nat)
deriving DecidableEq

/-- Trace entry: an event together with the logical time it starts at. -/
structure TraceEntry where
  time : Nat
  event : Event
deriving DecidableEq

/-- State threaded through a run: the logical clock, the chronological
event trace, and how many times `collect_metrics` was called on each
side's collector. -/
structure RunState where
  time : Nat
  trace : List TraceEntry
  baseline_metrics_calls : Nat
  target_metrics_calls : Nat
deriving DecidableEq

/-- State at the start of a run. -/
def initialRunState : RunState :=
  { time := 0, trace := [], baseline_metrics_calls := 0, target_metrics_calls := 0 }

/-- Behaviour of all external collaborators of one run.  Fallible calls
return `Except String`; `duration` says how long each awaited call
takes.  The metric collectors are indexed by how many times they were
already called, so the two rounds can answer differently. -/
structure Env where
  duration : Event → Nat
  node_identity_eval : DirectEvaluatorInput → Except String (List Evaluation)
  baseline_system_information : Except String SystemInformation
  target_system_information : Except String SystemInformation
  baseline_metrics : Nat → Except String (List String)
  target_metrics : Nat → Except String (List String)
  parse_metrics : List String → Except String Scrape
  tps_eval : Nat → DirectEvaluatorInput → Except String (List Evaluation)
  metrics_eval : Nat → MetricsEvaluatorInput → Except String (List Evaluation)
  system_information_eval :
    Nat → SystemInformationEvaluatorInput → Except String (List Evaluation)
  latency_eval : Nat → DirectEvaluatorInput → Except String (List Evaluation)

/-- Record one awaited event: append it to the trace stamped with the
current time, then advance the clock by its duration. -/
def recordEvent (env : Env) (e : Event) (s : RunState) : RunState :=
  { s with
    trace := s.trace ++ [{ time := s.time, event := e }],
    time := s.time + env.duration e }

/-- Counterpart of `tokio::time::sleep_until(deadline)`: log the
suspension and advance the clock to the deadline, a no-op when the clock
is already past it. -/
def sleep_until (deadline : Nat) (s : RunState) : RunState :=
  { s with
    trace := s.trace ++ [{ time := s.time, event := Event.sleepUntil deadline }],
    time := max s.time deadline }

/-- Counterpart of `BlockingRunner::collect_metrics` on the baseline
collector: fetch raw metric lines, mapping failures to
`MetricCollectorError` (blocking_runner.rs lines 64-71, 126-130, 173-174). -/
def collect_metrics_baseline (env : Env) (s : RunState) :
    Except RunnerError (List String) × RunState :=
  ((env.baseline_metrics s.baseline_metrics_calls).mapError
      RunnerError.MetricCollectorError,
   recordEvent env (Event.collectMetrics Side.baseline)
     { s with baseline_metrics_calls := s.baseline_metrics_calls + 1 })

/-- Counterpart of `BlockingRunner::collect_metrics` on the target
collector (blocking_runner.rs lines 64-71, 133, 177). -/
def collect_metrics_target (env : Env) (s : RunState) :
    Except RunnerError (List String) × RunState :=
  ((env.target_metrics s.target_metrics_calls).mapError
      RunnerError.MetricCollectorError,
   recordEvent env (Event.collectMetrics Side.target)
     { s with target_metrics_calls := s.target_metrics_calls + 1 })

/-- Counterpart of `BlockingRunner::parse_response` (blocking_runner.rs
lines 58-62): run the parser collaborator, mapping failures to
`ParseMetricsError`. -/
def parse_response (env : Env) (sd : Side) (lines : List String) (s : RunState) :
    Except RunnerError Scrape × RunState :=
  ((env.parse_metrics lines).mapError RunnerError.ParseMetricsError,
   recordEvent env (Event.parseMetrics sd) s)

/-- Selector used by the `find_map` on line 154: `Tps` variants yield
their evaluator, all others are skipped. -/
def tpsOf : EvaluatorType → Option Nat
  | EvaluatorType.Tps id => some id
  | _ => none

/-- Configuration of the runner (`BlockingRunnerArgs`): delay in seconds
between the two metric rounds. -/
structure BlockingRunnerArgs where
  metrics_fetch_delay_secs : Nat
deriving DecidableEq

/-- Construction-time state of the runner (`BlockingRunner`): the delay
configuration, the baseline identity, and the ordered evaluator list.
The baseline collector and the evaluator instances live in `Env`. -/
structure BlockingRunner where
  args : BlockingRunnerArgs
  baseline_node_information : NodeInformation
  evaluators : List EvaluatorType
deriving DecidableEq

/-- Counterpart of the final `for evaluator in &self.evaluators` loop
(blocking_runner.rs lines 194-212): dispatch each configured variant on
its stage-specific input, mapping failures to the per-variant error; a
`Tps` variant contributes an empty vector because it already ran.
Findings are concatenated in list order. -/
def runEvaluators (env : Env) (minput : MetricsEvaluatorInput)
    (sinput : SystemInformationEvaluatorInput) (dinput : DirectEvaluatorInput) :
    List EvaluatorType → RunState → Except RunnerError (List Evaluation) × RunState
  | [], s => (Except.ok [], s)
  | EvaluatorType.Metrics id :: rest, s =>
    let s1 := recordEvent env (Event.evaluateMetrics id) s
    match env.metrics_eval id minput with
    | Except.error e => (Except.error (RunnerError.MetricEvaluatorError e), s1)
    | Except.ok local_results =>
      match runEvaluators env minput sinput dinput rest s1 with
      | (Except.error err, s2) => (Except.error err, s2)
      | (Except.ok more, s2) => (Except.ok (local_results ++ more), s2)
  | EvaluatorType.SystemInformation id :: rest, s =>
    let s1 := recordEvent env (Event.evaluateSystemInformation id) s
    match env.system_information_eval id sinput with
    | Except.error e =>
      (Except.error (RunnerError.SystemInformationEvaluatorError e), s1)
    | Except.ok local_results =>
      match runEvaluators env minput sinput dinput rest s1 with
      | (Except.error err, s2) => (Except.error err, s2)
      | (Except.ok more, s2) => (Except.ok (local_results ++ more), s2)
  | EvaluatorType.Tps _ :: rest, s =>
    match runEvaluators env minput sinput dinput rest s with
    | (Except.error err, s2) => (Except.error err, s2)
    | (Except.ok more, s2) => (Except.ok ([] ++ more), s2)
  | EvaluatorType.Latency id :: rest, s =>
    let s1 := recordEvent env (Event.evaluateLatency id) s
    match env.latency_eval id dinput with
    | Except.error e => (Except.error (RunnerError.LatencyEvaluatorError e), s1)
    | Except.ok local_results =>
      match runEvaluators env minput sinput dinput rest s1 with
      | (Except.error err, s2) => (Except.error err, s2)
      | (Except.ok more, s2) => (Except.ok (local_results ++ more), s2)

/-- Tail of the run from the inter-snapshot wait onwards
(blocking_runner.rs lines 170-216): sleep until the precomputed
deadline, fetch and parse the second metrics round from both sides,
assemble the evaluator inputs, run the remaining evaluators, and build
the summary from all accumulated findings. -/
def run_after_tps (r : BlockingRunner) (env : Env) (din : DirectEvaluatorInput)
    (baseline_system_information target_system_information : SystemInformation)
    (first_baseline_metrics first_target_metrics : Scrape)
    (metrics_fetch_delay_time : Nat)
    (evaluation_results : List Evaluation) (s : RunState) :
    Except RunnerError EvaluationSummary × RunState :=
  let s9 := sleep_until metrics_fetch_delay_time s
  match collect_metrics_baseline env s9 with
  | (Except.error e, s10) => (Except.error e, s10)
  | (Except.ok second_baseline_lines, s10) =>
    match collect_metrics_target env s10 with
    | (Except.error e, s11) => (Except.error e, s11)
    | (Except.ok second_target_lines, s11) =>
      match parse_response env Side.baseline second_baseline_lines s11 with
      | (Except.error e, s12) => (Except.error e, s12)
      | (Except.ok second_baseline_metrics, s12) =>
        match parse_response env Side.target second_target_lines s12 with
        | (Except.error e, s13) => (Except.error e, s13)
        | (Except.ok second_target_metrics, s13) =>
          let metrics_evaluator_input : MetricsEvaluatorInput :=
            { previous_baseline_metrics := first_baseline_metrics,
              previous_target_metrics := first_target_metrics,
              latest_baseline_metrics := second_baseline_metrics,
              latest_target_metrics := second_target_metrics }
          let system_information_evaluator_input : SystemInformationEvaluatorInput :=
            { baseline_system_information := baseline_system_information,
              target_system_information := target_system_information }
          match runEvaluators env metrics_evaluator_input
              system_information_evaluator_input din r.evaluators s13 with
          | (Except.error err, s14) => (Except.error err, s14)
          | (Except.ok more, s14) =>
            (Except.ok (EvaluationSummary.fromResults (evaluation_results ++ more)),
             s14)

/-- Counterpart of `BlockingRunner::run` (blocking_runner.rs lines
84-217): identity gate, short-circuit on a non-passing identity score,
system-information fetches, first metrics round with parses, deadline
computation, optional Tps evaluator, deadline-anchored wait, second
metrics round with parses, remaining evaluators, summary. -/
def run (r : BlockingRunner) (env : Env) (target_node_address : NodeAddress) :
    Except RunnerError EvaluationSummary × RunState :=
  let direct_evaluator_input : DirectEvaluatorInput :=
    { baseline_node_information := r.baseline_node_information,
      target_node_address := target_node_address }
  let s0 := recordEvent env Event.evaluateNodeIdentity initialRunState
  match env.node_identity_eval direct_evaluator_input with
  | Except.error e => (Except.error (RunnerError.NodeIdentityEvaluatorError e), s0)
  | Except.ok node_identity_evaluations =>
    if node_identity_evaluations.any (fun ev => ev.score != 100) then
      (Except.ok (EvaluationSummary.fromResults node_identity_evaluations), s0)
    else
      let s1 := recordEvent env (Event.collectSystemInformation Side.baseline) s0
      match env.baseline_system_information with
      | Except.error e => (Except.error (RunnerError.MetricCollectorError e), s1)
      | Except.ok baseline_system_information =>
        let s2 := recordEvent env (Event.collectSystemInformation Side.target) s1
        match env.target_system_information with
        | Except.error e => (Except.error (RunnerError.MetricCollectorError e), s2)
        | Except.ok target_system_information =>
          match collect_metrics_baseline env s2 with
          | (Except.error e, s3) => (Except.error e, s3)
          | (Except.ok first_baseline_lines, s3) =>
            match collect_metrics_target env s3 with
            | (Except.error e, s4) => (Except.error e, s4)
            | (Except.ok first_target_lines, s4) =>
              match parse_response env Side.baseline first_baseline_lines s4 with
              | (Except.error e, s5) => (Except.error e, s5)
              | (Except.ok first_baseline_metrics, s5) =>
                match parse_response env Side.target first_target_lines s5 with
                | (Except.error e, s6) => (Except.error e, s6)
                | (Except.ok first_target_metrics, s6) =>
                  let metrics_fetch_delay_time :=
                    s6.time + r.args.metrics_fetch_delay_secs
                  match r.evaluators.findSome? tpsOf with
                  | none =>
                    run_after_tps r env direct_evaluator_input
                      baseline_system_information target_system_information
                      first_baseline_metrics first_target_metrics
                      metrics_fetch_delay_time node_identity_evaluations s6
                  | some tid =>
                    let s7 := recordEvent env (Event.evaluateTps tid) s6
                    match env.tps_eval tid direct_evaluator_input with
                    | Except.error e =>
                      (Except.error (RunnerError.TpsEvaluatorError e), s7)
                    | Except.ok tps_results =>
                      run_after_tps r env direct_evaluator_input
                        baseline_system_information target_system_information
                        first_baseline_metrics first_target_metrics
                        metrics_fetch_delay_time
                        (node_identity_evaluations ++ tps_results) s7

/-- Direct-comparison input assembled by `run` (blocking_runner.rs lines
91-94). -/
def dinput (r : BlockingRunner) (addr : NodeAddress) : DirectEvaluatorInput :=
  { baseline_node_information := r.baseline_node_information,
    target_node_address := addr }

/-- Metrics-evaluator input from the four parsed snapshots
(blocking_runner.rs lines 182-187). -/
def minputOf (pb1 pt1 pb2 pt2 : Scrape) : MetricsEvaluatorInput :=
  { previous_baseline_metrics := pb1,
    previous_target_metrics := pt1,
    latest_baseline_metrics := pb2,
    latest_target_metrics := pt2 }

/-- System-information-evaluator input (blocking_runner.rs lines 189-192). -/
def sinputOf (bsi tsi : SystemInformation) : SystemInformationEvaluatorInput :=
  { baseline_system_information := bsi,
    target_system_information := tsi }

/-- Findings the final evaluator loop obtains from one configured
variant: the environment's answer for its stage input, and the empty
list for a `Tps` variant (which already ran). -/
def loopFindings (env : Env) (minput : MetricsEvaluatorInput)
    (sinput : SystemInformationEvaluatorInput) (dinput : DirectEvaluatorInput) :
    EvaluatorType → Except String (List Evaluation)
  | EvaluatorType.Tps _ => Except.ok []
  | EvaluatorType.Metrics id => env.metrics_eval id minput
  | EvaluatorType.SystemInformation id => env.system_information_eval id sinput
  | EvaluatorType.Latency id => env.latency_eval id dinput

/-- Event emitted by the final loop for one variant: none for `Tps`. -/
def loopEvent : EvaluatorType → List Event
  | EvaluatorType.Tps _ => []
  | EvaluatorType.Metrics id => [Event.evaluateMetrics id]
  | EvaluatorType.SystemInformation id => [Event.evaluateSystemInformation id]
  | EvaluatorType.Latency id => [Event.evaluateLatency id]

/-- Events the final loop emits for a configured list, in order. -/
def loopEvents (l : List EvaluatorType) : List Event :=
  l.flatMap loopEvent

/-- Time one variant's dispatch consumes in the final loop. -/
def evDuration (env : Env) : EvaluatorType → Nat
  | EvaluatorType.Tps _ => 0
  | EvaluatorType.Metrics id => env.duration (Event.evaluateMetrics id)
  | EvaluatorType.SystemInformation id =>
    env.duration (Event.evaluateSystemInformation id)
  | EvaluatorType.Latency id => env.duration (Event.evaluateLatency id)

/-- Total time the final loop consumes. -/
def loopDuration (env : Env) : List EvaluatorType → Nat
  | [] => 0
  | e :: rest => evDuration env e + loopDuration env rest

/-- Timed trace the final loop appends, starting at time `t`. -/
def loopTrace (env : Env) : List EvaluatorType → Nat → List TraceEntry
  | [], _ => []
  | EvaluatorType.Tps _ :: rest, t => loopTrace env rest t
  | EvaluatorType.Metrics id :: rest, t =>
    { time := t, event := Event.evaluateMetrics id } ::
      loopTrace env rest (t + env.duration (Event.evaluateMetrics id))
  | EvaluatorType.SystemInformation id :: rest, t =>
    { time := t, event := Event.evaluateSystemInformation id } ::
      loopTrace env rest (t + env.duration (Event.evaluateSystemInformation id))
  | EvaluatorType.Latency id :: rest, t =>
    { time := t, event := Event.evaluateLatency id } ::
      loopTrace env rest (t + env.duration (Event.evaluateLatency id))

/-- Trace of the run up to and including the first-round target parse,
on the path where the identity gate passes and every call succeeds. -/
def phase1Trace (env : Env) : List TraceEntry :=
  let d := env.duration
  let t1 := d Event.evaluateNodeIdentity
  let t2 := t1 + d (Event.collectSystemInformation Side.baseline)
  let t3 := t2 + d (Event.collectSystemInformation Side.target)
  let t4 := t3 + d (Event.collectMetrics Side.baseline)
  let t5 := t4 + d (Event.collectMetrics Side.target)
  let t6 := t5 + d (Event.parseMetrics Side.baseline)
  [{ time := 0, event := Event.evaluateNodeIdentity },
   { time := t1, event := Event.collectSystemInformation Side.baseline },
   { time := t2, event := Event.collectSystemInformation Side.target },
   { time := t3, event := Event.collectMetrics Side.baseline },
   { time := t4, event := Event.collectMetrics Side.target },
   { time := t5, event := Event.parseMetrics Side.baseline },
   { time := t6, event := Event.parseMetrics Side.target }]

/-- Logical time right after the first-round parses, when the deadline
is computed (blocking_runner.rs lines 151-152). -/
def phase1End (env : Env) : Nat :=
  let d := env.duration
  d Event.evaluateNodeIdentity
    + d (Event.collectSystemInformation Side.baseline)
    + d (Event.collectSystemInformation Side.target)
    + d (Event.collectMetrics Side.baseline)
    + d (Event.collectMetrics Side.target)
    + d (Event.parseMetrics Side.baseline)
    + d (Event.parseMetrics Side.target)

/-- Timed trace `run_after_tps` appends when every call succeeds:
the suspension starting at time `u` with deadline `dl`, the second
metrics round with its parses, and the final loop. -/
def tailTrace (env : Env) (r : BlockingRunner) (dl u : Nat) : List TraceEntry :=
  let d := env.duration
  let v := max u dl
  let v1 := v + d (Event.collectMetrics Side.baseline)
  let v2 := v1 + d (Event.collectMetrics Side.target)
  let v3 := v2 + d (Event.parseMetrics Side.baseline)
  let v4 := v3 + d (Event.parseMetrics Side.target)
  { time := u, event := Event.sleepUntil dl } ::
  { time := v, event := Event.collectMetrics Side.baseline } ::
  { time := v1, event := Event.collectMetrics Side.target } ::
  { time := v2, event := Event.parseMetrics Side.baseline } ::
  { time := v3, event := Event.parseMetrics Side.target } ::
  loopTrace env r.evaluators v4

/-- Logical time at which `run_after_tps` finishes when every call
succeeds. -/
def tailEnd (env : Env) (r : BlockingRunner) (dl u : Nat) : Nat :=
  let d := env.duration
  max u dl
    + d (Event.collectMetrics Side.baseline)
    + d (Event.collectMetrics Side.target)
    + d (Event.parseMetrics Side.baseline)
    + d (Event.parseMetrics Side.target)
    + loopDuration env r.evaluators

/-- Recognises a Tps-evaluator invocation in the trace. -/
def isTpsEvent : Event → Bool
  | Event.evaluateTps _ => true
  | _ => false

/-- Recognises any fetch from the target node's source. -/
def isTargetFetch : Event → Bool
  | Event.collectMetrics Side.target => true
  | Event.collectSystemInformation Side.target => true
  | _ => false

/-- Recognises any fetch (metrics or system information, either side). -/
def isFetch : Event → Bool
  | Event.collectMetrics _ => true
  | Event.collectSystemInformation _ => true
  | _ => false

/-- Number of Tps-evaluator invocations a run performed. -/
def countTpsEvents (s : RunState) : Nat :=
  s.trace.countP (fun en => isTpsEvent en.event)

/-- Number of calls a run made on the target node's source. -/
def countTargetFetches (s : RunState) : Nat :=
  s.trace.countP (fun en => isTargetFetch en.event)

/-- Events of a run in chronological order, without timestamps. -/
def events (s : RunState) : List Event :=
  s.trace.map TraceEntry.event

/-- Passing identity findings used by the concrete environments below. -/
def wIdPass : List Evaluation :=
  [{ score := 100, explanation := "identity matches" }]

/-- Non-passing identity findings (score below the maximum). -/
def wIdLow : List Evaluation :=
  [{ score := 50, explanation := "identity mismatch" }]

/-- Injective stand-in for the parser collaborator's snapshots. -/
def wScrapeOf (lines : List String) : Scrape :=
  { samples := lines.map (fun l => (l, 1)) }

/-- Concrete all-success environment: every collaborator answers, the
Tps evaluator takes 7 seconds, every other awaited call takes 1. -/
def wEnv : Env :=
  { duration := fun e =>
      match e with
      | Event.evaluateTps _ => 7
      | _ => 1,
    node_identity_eval := fun _ => Except.ok wIdPass,
    baseline_system_information := Except.ok { info := "baseline sysinfo" },
    target_system_information := Except.ok { info := "target sysinfo" },
    baseline_metrics := fun k => Except.ok [if k = 0 then "b0" else "b1"],
    target_metrics := fun k => Except.ok [if k = 0 then "t0" else "t1"],
    parse_metrics := fun lines => Except.ok (wScrapeOf lines),
    tps_eval := fun _ _ =>
      Except.ok [{ score := 90, explanation := "tps" }],
    metrics_eval := fun _ _ =>
      Except.ok [{ score := 80, explanation := "metrics" }],
    system_information_eval := fun _ _ =>
      Except.ok [{ score := 70, explanation := "sysinfo" }],
    latency_eval := fun _ _ =>
      Except.ok [{ score := 60, explanation := "latency" }] }

/-- Findings `wEnv` makes the final loop contribute per variant. -/
def wF : EvaluatorType → List Evaluation
  | EvaluatorType.Tps _ => []
  | EvaluatorType.Metrics _ => [{ score := 80, explanation := "metrics" }]
  | EvaluatorType.SystemInformation _ => [{ score := 70, explanation := "sysinfo" }]
  | EvaluatorType.Latency _ => [{ score := 60, explanation := "latency" }]

/-- Concrete target address. -/
def wAddr : NodeAddress :=
  { url := "http://target" }

/-- Concrete runner configuration with two Tps variants in mid-list. -/
def wCfg : BlockingRunner :=
  { args := { metrics_fetch_delay_secs := 5 },
    baseline_node_information := { fingerprint := "baseline" },
    evaluators := [EvaluatorType.Metrics 0, EvaluatorType.Tps 1,
      EvaluatorType.Latency 2, EvaluatorType.Tps 3,
      EvaluatorType.SystemInformation 4] }

/-- Configuration without any Tps variant. -/
def wCfgNoTps : BlockingRunner :=
  { wCfg with evaluators := [EvaluatorType.Metrics 0, EvaluatorType.Latency 2] }

/-- Configuration with an empty evaluator list. -/
def wCfgEmpty : BlockingRunner :=
  { wCfg with evaluators := [] }

/-- Environment whose identity evaluation has a non-passing finding. -/
def wEnvLow : Env :=
  { wEnv with node_identity_eval := fun _ => Except.ok wIdLow }

/-- Environment whose identity evaluation returns zero findings. -/
def wEnvIdEmpty : Env :=
  { wEnv with node_identity_eval := fun _ => Except.ok [] }

/-- Environment whose baseline system-information fetch fails. -/
def wEnvFailBsi : Env :=
  { wEnv with baseline_system_information := Except.error "baseline sysinfo down" }

/-- Environment whose target collector fails only on its second
metrics call. -/
def wEnvFailSecondTarget : Env :=
  { wEnv with target_metrics := fun k =>
      if k = 0 then Except.ok ["t0"] else Except.error "target down" }

/-- Environment whose baseline metrics fetch fails on the first call. -/
def wEnvFailFetchB1 : Env :=
  { wEnv with baseline_metrics := fun _ => Except.error "baseline fetch down" }

/-- Environment whose parser fails on the first-round baseline text. -/
def wEnvParseB1 : Env :=
  { wEnv with parse_metrics := fun lines =>
      if lines = ["b0"] then Except.error "bad b0" else Except.ok (wScrapeOf lines) }

/-- Environment whose parser fails on the first-round target text. -/
def wEnvParseT1 : Env :=
  { wEnv with parse_metrics := fun lines =>
      if lines = ["t0"] then Except.error "bad t0" else Except.ok (wScrapeOf lines) }

/-- Environment whose parser fails on the second-round baseline text. -/
def wEnvParseB2 : Env :=
  { wEnv with parse_metrics := fun lines =>
      if lines = ["b1"] then Except.error "bad b1" else Except.ok (wScrapeOf lines) }

/-- Environment whose parser fails on the second-round target text. -/
def wEnvParseT2 : Env :=
  { wEnv with parse_metrics := fun lines =>
      if lines = ["t1"] then Except.error "bad t1" else Except.ok (wScrapeOf lines) }

/-- Environment whose node-identity evaluation itself fails. -/
def wEnvFailId : Env :=
  { wEnv with node_identity_eval := fun _ => Except.error "identity eval down" }

/-- Environment whose target system-information fetch fails. -/
def wEnvFailTsi : Env :=
  { wEnv with target_system_information := Except.error "target sysinfo down" }

/-- Environment whose target metrics fetch fails on the first call. -/
def wEnvFailFetchT1 : Env :=
  { wEnv with target_metrics := fun _ => Except.error "target fetch down" }

/-- Environment whose baseline collector fails only on its second
metrics call. -/
def wEnvFailSecondBaseline : Env :=
  { wEnv with baseline_metrics := fun k =>
      if k = 0 then Except.ok ["b0"] else Except.error "baseline down" }

/-- Environment whose Tps evaluator fails. -/
def wEnvFailTps : Env :=
  { wEnv with tps_eval := fun _ _ => Except.error "tps down" }

/-- Environment whose Metrics evaluator fails in the final loop. -/
def wEnvFailMetricsEval : Env :=
  { wEnv with metrics_eval := fun _ _ => Except.error "metrics eval down" }

/-- Environment whose SystemInformation evaluator fails in the final
loop. -/
def wEnvFailSysEval : Env :=
  { wEnv with system_information_eval := fun _ _ =>
      Except.error "sysinfo eval down" }

/-- Environment whose Latency evaluator fails in the final loop. -/
def wEnvFailLatencyEval : Env :=
  { wEnv with latency_eval := fun _ _ => Except.error "latency eval down" }

/-- Characterisation of the final evaluator loop when every dispatched
evaluator succeeds: findings are concatenated in configured order (with
nothing for `Tps` variants), the loop's events are appended to the
trace, and the clock advances by the loop's duration. -/
theorem runEvaluators_spec (env : Env) (minput : MetricsEvaluatorInput)
    (sinput : SystemInformationEvaluatorInput) (din : DirectEvaluatorInput)
    (F : EvaluatorType → List Evaluation) :
    ∀ (l : List EvaluatorType) (s : RunState),
      (∀ e ∈ l, loopFindings env minput sinput din e = Except.ok (F e)) →
      runEvaluators env minput sinput din l s =
        (Except.ok (l.flatMap F),
         { s with
           trace := s.trace ++ loopTrace env l s.time,
           time := s.time + loopDuration env l }) := by
  intro l
  induction l with
  | nil =>
    intro s h
    simp [runEvaluators, loopTrace, loopDuration]
  | cons e rest ih =>
    intro s h
    have he := h e (List.mem_cons_self e rest)
    have hrest : ∀ x ∈ rest,
        loopFindings env minput sinput din x = Except.ok (F x) :=
      fun x hx => h x (List.mem_cons_of_mem e hx)
    cases e with
    | Tps id =>
      have hF : F (EvaluatorType.Tps id) = [] := by
        have : Except.ok (ε := String) [] = Except.ok (F (EvaluatorType.Tps id)) := by
          simpa [loopFindings] using he
        exact (Except.ok.injEq _ _ ▸ this).symm
      simp [runEvaluators, ih _ hrest, loopTrace, loopDuration, evDuration, hF]
    | Metrics id =>
      have he' : env.metrics_eval id minput = Except.ok (F (EvaluatorType.Metrics id)) := he
      simp [runEvaluators, he', ih _ hrest, recordEvent, loopTrace, loopDuration,
        evDuration, List.append_assoc, Nat.add_assoc]
    | SystemInformation id =>
      have he' : env.system_information_eval id sinput
          = Except.ok (F (EvaluatorType.SystemInformation id)) := he
      simp [runEvaluators, he', ih _ hrest, recordEvent, loopTrace, loopDuration,
        evDuration, List.append_assoc, Nat.add_assoc]
    | Latency id =>
      have he' : env.latency_eval id din = Except.ok (F (EvaluatorType.Latency id)) := he
      simp [runEvaluators, he', ih _ hrest, recordEvent, loopTrace, loopDuration,
        evDuration, List.append_assoc, Nat.add_assoc]

/-- Characterisation of the tail of the run (wait, second metrics round,
final loop) when every call succeeds: the summary is the accumulated
findings followed by the loop findings in configured order, the trace
grows by `tailTrace`, and each collector is consulted once more. -/
theorem run_after_tps_spec (r : BlockingRunner) (env : Env)
    (din : DirectEvaluatorInput) (bsi tsi : SystemInformation)
    (pb1 pt1 : Scrape) (dl : Nat) (acc : List Evaluation) (s : RunState)
    (lb2 lt2 : List String) (pb2 pt2 : Scrape)
    (F : EvaluatorType → List Evaluation)
    (hbm : env.baseline_metrics s.baseline_metrics_calls = Except.ok lb2)
    (htm : env.target_metrics s.target_metrics_calls = Except.ok lt2)
    (hpb2 : env.parse_metrics lb2 = Except.ok pb2)
    (hpt2 : env.parse_metrics lt2 = Except.ok pt2)
    (hloop : ∀ e ∈ r.evaluators,
      loopFindings env (minputOf pb1 pt1 pb2 pt2) (sinputOf bsi tsi) din e
        = Except.ok (F e)) :
    run_after_tps r env din bsi tsi pb1 pt1 dl acc s =
      (Except.ok (EvaluationSummary.fromResults (acc ++ r.evaluators.flatMap F)),
       { time := tailEnd env r dl s.time,
         trace := s.trace ++ tailTrace env r dl s.time,
         baseline_metrics_calls := s.baseline_metrics_calls + 1,
         target_metrics_calls := s.target_metrics_calls + 1 }) := by
  have hrw : ∀ s' : RunState,
      runEvaluators env (minputOf pb1 pt1 pb2 pt2) (sinputOf bsi tsi) din
          r.evaluators s' =
        (Except.ok (r.evaluators.flatMap F),
         { s' with
           trace := s'.trace ++ loopTrace env r.evaluators s'.time,
           time := s'.time + loopDuration env r.evaluators }) :=
    fun s' => runEvaluators_spec env (minputOf pb1 pt1 pb2 pt2) (sinputOf bsi tsi)
      din F r.evaluators s' hloop
  simp only [minputOf, sinputOf] at hrw
  simp [run_after_tps, sleep_until, collect_metrics_baseline, collect_metrics_target,
    parse_response, recordEvent, hbm, htm, hpb2, hpt2, minputOf, sinputOf,
    Except.mapError, hrw, tailTrace, tailEnd, List.append_assoc, Nat.add_assoc]

/-- Characterisation of a full run on the success path when a Tps
evaluator is configured: the summary is identity findings, then Tps
findings, then the loop findings in configured order, and the trace is
phase 1, the Tps invocation, and the tail anchored at the deadline
computed before the Tps evaluator started. -/
theorem run_spec_with_tps (r : BlockingRunner) (env : Env) (addr : NodeAddress)
    (idevals : List Evaluation) (bsi tsi : SystemInformation)
    (lb1 lt1 lb2 lt2 : List String) (pb1 pt1 pb2 pt2 : Scrape)
    (tid : Nat) (ftps : List Evaluation) (F : EvaluatorType → List Evaluation)
    (hid : env.node_identity_eval (dinput r addr) = Except.ok idevals)
    (hpass : ∀ ev ∈ idevals, ev.score = 100)
    (hbs : env.baseline_system_information = Except.ok bsi)
    (hts : env.target_system_information = Except.ok tsi)
    (hbm0 : env.baseline_metrics 0 = Except.ok lb1)
    (htm0 : env.target_metrics 0 = Except.ok lt1)
    (hpb1 : env.parse_metrics lb1 = Except.ok pb1)
    (hpt1 : env.parse_metrics lt1 = Except.ok pt1)
    (hfind : r.evaluators.findSome? tpsOf = some tid)
    (htps : env.tps_eval tid (dinput r addr) = Except.ok ftps)
    (hbm1 : env.baseline_metrics 1 = Except.ok lb2)
    (htm1 : env.target_metrics 1 = Except.ok lt2)
    (hpb2 : env.parse_metrics lb2 = Except.ok pb2)
    (hpt2 : env.parse_metrics lt2 = Except.ok pt2)
    (hloop : ∀ e ∈ r.evaluators,
      loopFindings env (minputOf pb1 pt1 pb2 pt2) (sinputOf bsi tsi)
        (dinput r addr) e = Except.ok (F e)) :
    run r env addr =
      (Except.ok (EvaluationSummary.fromResults
        (idevals ++ ftps ++ r.evaluators.flatMap F)),
       { time := tailEnd env r (phase1End env + r.args.metrics_fetch_delay_secs)
           (phase1End env + env.duration (Event.evaluateTps tid)),
         trace := phase1Trace env
           ++ [{ time := phase1End env, event := Event.evaluateTps tid }]
           ++ tailTrace env r (phase1End env + r.args.metrics_fetch_delay_secs)
                (phase1End env + env.duration (Event.evaluateTps tid)),
         baseline_metrics_calls := 2, target_metrics_calls := 2 }) := by
  have hany : idevals.any (fun ev => ev.score != 100) = false := by
    rw [List.any_eq_false]
    intro ev hev
    simp [hpass ev hev]
  simp only [dinput] at hid htps hloop
  have htail := run_after_tps_spec r env
    { baseline_node_information := r.baseline_node_information,
      target_node_address := addr }
    bsi tsi pb1 pt1
  simp only [run, hid, hany, hbs, hts, hbm0, htm0, hpb1, hpt1, hfind, htps,
    collect_metrics_baseline, collect_metrics_target, parse_response, recordEvent,
    initialRunState, Except.mapError, Bool.false_eq_true, if_false, ite_false,
    Nat.zero_add, Nat.add_zero]
  rw [htail _ _ _ lb2 lt2 pb2 pt2 F hbm1 htm1 hpb2 hpt2 hloop]
  simp [phase1Trace, phase1End, tailTrace, tailEnd, List.append_assoc, Nat.add_assoc]

/-- Characterisation of a full run on the success path when no Tps
evaluator is configured: the summary is identity findings followed by
the loop findings, and the wait is anchored at the deadline computed
right after the first-round parses. -/
theorem run_spec_no_tps (r : BlockingRunner) (env : Env) (addr : NodeAddress)
    (idevals : List Evaluation) (bsi tsi : SystemInformation)
    (lb1 lt1 lb2 lt2 : List String) (pb1 pt1 pb2 pt2 : Scrape)
    (F : EvaluatorType → List Evaluation)
    (hid : env.node_identity_eval (dinput r addr) = Except.ok idevals)
    (hpass : ∀ ev ∈ idevals, ev.score = 100)
    (hbs : env.baseline_system_information = Except.ok bsi)
    (hts : env.target_system_information = Except.ok tsi)
    (hbm0 : env.baseline_metrics 0 = Except.ok lb1)
    (htm0 : env.target_metrics 0 = Except.ok lt1)
    (hpb1 : env.parse_metrics lb1 = Except.ok pb1)
    (hpt1 : env.parse_metrics lt1 = Except.ok pt1)
    (hfind : r.evaluators.findSome? tpsOf = none)
    (hbm1 : env.baseline_metrics 1 = Except.ok lb2)
    (htm1 : env.target_metrics 1 = Except.ok lt2)
    (hpb2 : env.parse_metrics lb2 = Except.ok pb2)
    (hpt2 : env.parse_metrics lt2 = Except.ok pt2)
    (hloop : ∀ e ∈ r.evaluators,
      loopFindings env (minputOf pb1 pt1 pb2 pt2) (sinputOf bsi tsi)
        (dinput r addr) e = Except.ok (F e)) :
    run r env addr =
      (Except.ok (EvaluationSummary.fromResults
        (idevals ++ r.evaluators.flatMap F)),
       { time := tailEnd env r (phase1End env + r.args.metrics_fetch_delay_secs)
           (phase1End env),
         trace := phase1Trace env
           ++ tailTrace env r (phase1End env + r.args.metrics_fetch_delay_secs)
                (phase1End env),
         baseline_metrics_calls := 2, target_metrics_calls := 2 }) := by
  have hany : idevals.any (fun ev => ev.score != 100) = false := by
    rw [List.any_eq_false]
    intro ev hev
    simp [hpass ev hev]
  simp only [dinput] at hid hloop
  have htail := run_after_tps_spec r env
    { baseline_node_information := r.baseline_node_information,
      target_node_address := addr }
    bsi tsi pb1 pt1
  simp only [run, hid, hany, hbs, hts, hbm0, htm0, hpb1, hpt1, hfind,
    collect_metrics_baseline, collect_metrics_target, parse_response, recordEvent,
    initialRunState, Except.mapError, Bool.false_eq_true, if_false, ite_false,
    Nat.zero_add, Nat.add_zero]
  rw [htail _ _ _ lb2 lt2 pb2 pt2 F hbm1 htm1 hpb2 hpt2 hloop]
  simp [phase1Trace, phase1End, tailTrace, tailEnd, List.append_assoc, Nat.add_assoc]

/-- Events of the expected loop trace, independent of the start time. -/
theorem loopTrace_map_event (env : Env) :
    ∀ (l : List EvaluatorType) (t : Nat),
      (loopTrace env l t).map TraceEntry.event = loopEvents l := by
  intro l
  induction l with
  | nil => intro t; simp [loopTrace, loopEvents]
  | cons e rest ih =>
    intro t
    cases e <;> simp [loopTrace, loopEvents, loopEvent, ih]

/-- Loop trace entries are evaluator dispatches only, so any predicate
false on the three dispatched variants counts zero there. -/
theorem loopTrace_countP (env : Env) (q : Event → Bool)
    (hm : ∀ id, q (Event.evaluateMetrics id) = false)
    (hs : ∀ id, q (Event.evaluateSystemInformation id) = false)
    (hl : ∀ id, q (Event.evaluateLatency id) = false) :
    ∀ (l : List EvaluatorType) (t : Nat),
      (loopTrace env l t).countP (fun en => q en.event) = 0 := by
  intro l
  induction l with
  | nil => intro t; simp [loopTrace]
  | cons e rest ih =>
    intro t
    cases e <;> simp [loopTrace, List.countP_cons, hm, hs, hl, ih]

/-- Resolution of the `find_map` on line 154: with no Tps variant before
it, the first Tps variant in list order is selected. -/
theorem findSome?_tps_first (pre post : List EvaluatorType) (tid : Nat)
    (hpre : ∀ e ∈ pre, tpsOf e = none) :
    (pre ++ EvaluatorType.Tps tid :: post).findSome? tpsOf = some tid := by
  induction pre with
  | nil => simp [List.findSome?_cons, tpsOf]
  | cons e rest ih =>
    have he := hpre e (List.mem_cons_self e rest)
    simp [List.findSome?_cons, he,
      ih (fun x hx => hpre x (List.mem_cons_of_mem e hx))]

/-- Claim C1: when the NodeIdentity evaluator succeeds and some finding
scores below the maximum, `run` returns a successful summary holding
exactly the identity findings, the trace holds the identity evaluation
alone, and in particular no metrics or system-information fetch occurs
on either side. -/
theorem C1_short_circuit (r : BlockingRunner) (env : Env) (addr : NodeAddress)
    (idevals : List Evaluation)
    (hid : env.node_identity_eval (dinput r addr) = Except.ok idevals)
    (hlow : ∃ ev ∈ idevals, ev.score < 100) :
    run r env addr
      = (Except.ok (EvaluationSummary.fromResults idevals),
         { time := env.duration Event.evaluateNodeIdentity,
           trace := [{ time := 0, event := Event.evaluateNodeIdentity }],
           baseline_metrics_calls := 0, target_metrics_calls := 0 })
    ∧ ∀ en ∈ (run r env addr).2.trace, isFetch en.event = false := by
  obtain ⟨ev, hev, hlt⟩ := hlow
  have hany : idevals.any (fun x => x.score != 100) = true := by
    rw [List.any_eq_true]
    exact ⟨ev, hev, by simp; omega⟩
  simp only [dinput] at hid
  have h1 : run r env addr
      = (Except.ok (EvaluationSummary.fromResults idevals),
         { time := env.duration Event.evaluateNodeIdentity,
           trace := [{ time := 0, event := Event.evaluateNodeIdentity }],
           baseline_metrics_calls := 0, target_metrics_calls := 0 }) := by
    simp [run, hid, hany, recordEvent, initialRunState]
  refine ⟨h1, ?_⟩
  rw [h1]
  intro en hen
  rw [List.mem_singleton] at hen
  rw [hen]
  rfl

/-- Witness for C1 at the concrete mismatching environment. -/
theorem C1_short_circuit_witness :
    run wCfg wEnvLow wAddr
      = (Except.ok (EvaluationSummary.fromResults wIdLow),
         { time := wEnvLow.duration Event.evaluateNodeIdentity,
           trace := [{ time := 0, event := Event.evaluateNodeIdentity }],
           baseline_metrics_calls := 0, target_metrics_calls := 0 })
    ∧ ∀ en ∈ (run wCfg wEnvLow wAddr).2.trace, isFetch en.event = false :=
  C1_short_circuit wCfg wEnvLow wAddr wIdLow rfl
    ⟨{ score := 50, explanation := "identity mismatch" },
     by simp [wIdLow], by decide⟩

/-- Claim C2: the wait deadline is computed as now + configured delay
before the Tps evaluator executes (at time `phase1End env`), the run
then suspends only until that deadline (the fetch after the suspension
starts at the maximum of the Tps completion time and the deadline), and
when the Tps runtime meets or exceeds the delay the second metrics
round starts with zero additional wait. -/
theorem C2_wait_deadline_anchored (r : BlockingRunner) (env : Env)
    (addr : NodeAddress) (idevals : List Evaluation)
    (bsi tsi : SystemInformation) (lb1 lt1 lb2 lt2 : List String)
    (pb1 pt1 pb2 pt2 : Scrape) (tid : Nat) (ftps : List Evaluation)
    (F : EvaluatorType → List Evaluation)
    (hid : env.node_identity_eval (dinput r addr) = Except.ok idevals)
    (hpass : ∀ ev ∈ idevals, ev.score = 100)
    (hbs : env.baseline_system_information = Except.ok bsi)
    (hts : env.target_system_information = Except.ok tsi)
    (hbm0 : env.baseline_metrics 0 = Except.ok lb1)
    (htm0 : env.target_metrics 0 = Except.ok lt1)
    (hpb1 : env.parse_metrics lb1 = Except.ok pb1)
    (hpt1 : env.parse_metrics lt1 = Except.ok pt1)
    (hfind : r.evaluators.findSome? tpsOf = some tid)
    (htps : env.tps_eval tid (dinput r addr) = Except.ok ftps)
    (hbm1 : env.baseline_metrics 1 = Except.ok lb2)
    (htm1 : env.target_metrics 1 = Except.ok lt2)
    (hpb2 : env.parse_metrics lb2 = Except.ok pb2)
    (hpt2 : env.parse_metrics lt2 = Except.ok pt2)
    (hloop : ∀ e ∈ r.evaluators,
      loopFindings env (minputOf pb1 pt1 pb2 pt2) (sinputOf bsi tsi)
        (dinput r addr) e = Except.ok (F e)) :
    (∃ rest, (run r env addr).2.trace
      = phase1Trace env
        ++ [{ time := phase1End env, event := Event.evaluateTps tid },
            { time := phase1End env + env.duration (Event.evaluateTps tid),
              event := Event.sleepUntil
                (phase1End env + r.args.metrics_fetch_delay_secs) },
            { time := max (phase1End env + env.duration (Event.evaluateTps tid))
                (phase1End env + r.args.metrics_fetch_delay_secs),
              event := Event.collectMetrics Side.baseline }]
        ++ rest)
    ∧ (r.args.metrics_fetch_delay_secs ≤ env.duration (Event.evaluateTps tid) →
        max (phase1End env + env.duration (Event.evaluateTps tid))
            (phase1End env + r.args.metrics_fetch_delay_secs)
          = phase1End env + env.duration (Event.evaluateTps tid)) := by
  have h := run_spec_with_tps r env addr idevals bsi tsi lb1 lt1 lb2 lt2
    pb1 pt1 pb2 pt2 tid ftps F hid hpass hbs hts hbm0 htm0 hpb1 hpt1 hfind
    htps hbm1 htm1 hpb2 hpt2 hloop
  constructor
  · refine ⟨(tailTrace env r (phase1End env + r.args.metrics_fetch_delay_secs)
        (phase1End env + env.duration (Event.evaluateTps tid))).drop 2, ?_⟩
    rw [h]
    simp [tailTrace, List.append_assoc]
  · intro hle
    exact max_eq_left (Nat.add_le_add_left hle _)

/-- Witness for C2 at the concrete all-success environment, whose Tps
evaluator takes 7 seconds against a configured delay of 5. -/
theorem C2_wait_deadline_anchored_witness :
    (∃ rest, (run wCfg wEnv wAddr).2.trace
      = phase1Trace wEnv
        ++ [{ time := phase1End wEnv, event := Event.evaluateTps 1 },
            { time := phase1End wEnv + wEnv.duration (Event.evaluateTps 1),
              event := Event.sleepUntil
                (phase1End wEnv + wCfg.args.metrics_fetch_delay_secs) },
            { time := max (phase1End wEnv + wEnv.duration (Event.evaluateTps 1))
                (phase1End wEnv + wCfg.args.metrics_fetch_delay_secs),
              event := Event.collectMetrics Side.baseline }]
        ++ rest)
    ∧ max (phase1End wEnv + wEnv.duration (Event.evaluateTps 1))
          (phase1End wEnv + wCfg.args.metrics_fetch_delay_secs)
        = phase1End wEnv + wEnv.duration (Event.evaluateTps 1) := by
  have h := C2_wait_deadline_anchored wCfg wEnv wAddr wIdPass
    { info := "baseline sysinfo" } { info := "target sysinfo" }
    ["b0"] ["t0"] ["b1"] ["t1"]
    (wScrapeOf ["b0"]) (wScrapeOf ["t0"]) (wScrapeOf ["b1"]) (wScrapeOf ["t1"])
    1 [{ score := 90, explanation := "tps" }] wF
    rfl (by decide) rfl rfl rfl rfl rfl rfl rfl rfl rfl rfl rfl rfl
    (by intro e he; fin_cases he <;> rfl)
  exact ⟨h.1, h.2 (by decide)⟩

/-- Claim C3: on a run that reaches the evaluator stages, the Tps
evaluator is invoked exactly once, between the first and the second
metrics round, wherever the Tps variant sits in the configured list,
and a Tps variant reached in the final loop contributes no further
findings. -/
theorem C3_tps_runs_once (r : BlockingRunner) (env : Env)
    (addr : NodeAddress) (idevals : List Evaluation)
    (bsi tsi : SystemInformation) (lb1 lt1 lb2 lt2 : List String)
    (pb1 pt1 pb2 pt2 : Scrape) (tid : Nat) (ftps : List Evaluation)
    (F : EvaluatorType → List Evaluation)
    (hid : env.node_identity_eval (dinput r addr) = Except.ok idevals)
    (hpass : ∀ ev ∈ idevals, ev.score = 100)
    (hbs : env.baseline_system_information = Except.ok bsi)
    (hts : env.target_system_information = Except.ok tsi)
    (hbm0 : env.baseline_metrics 0 = Except.ok lb1)
    (htm0 : env.target_metrics 0 = Except.ok lt1)
    (hpb1 : env.parse_metrics lb1 = Except.ok pb1)
    (hpt1 : env.parse_metrics lt1 = Except.ok pt1)
    (hfind : r.evaluators.findSome? tpsOf = some tid)
    (htps : env.tps_eval tid (dinput r addr) = Except.ok ftps)
    (hbm1 : env.baseline_metrics 1 = Except.ok lb2)
    (htm1 : env.target_metrics 1 = Except.ok lt2)
    (hpb2 : env.parse_metrics lb2 = Except.ok pb2)
    (hpt2 : env.parse_metrics lt2 = Except.ok pt2)
    (hloop : ∀ e ∈ r.evaluators,
      loopFindings env (minputOf pb1 pt1 pb2 pt2) (sinputOf bsi tsi)
        (dinput r addr) e = Except.ok (F e)) :
    (run r env addr).1
      = Except.ok (EvaluationSummary.fromResults
          (idevals ++ ftps ++ r.evaluators.flatMap F))
    ∧ countTpsEvents (run r env addr).2 = 1
    ∧ events (run r env addr).2
      = [Event.evaluateNodeIdentity,
         Event.collectSystemInformation Side.baseline,
         Event.collectSystemInformation Side.target,
         Event.collectMetrics Side.baseline,
         Event.collectMetrics Side.target,
         Event.parseMetrics Side.baseline,
         Event.parseMetrics Side.target]
        ++ [Event.evaluateTps tid]
        ++ (Event.sleepUntil (phase1End env + r.args.metrics_fetch_delay_secs)
            :: Event.collectMetrics Side.baseline
            :: Event.collectMetrics Side.target
            :: Event.parseMetrics Side.baseline
            :: Event.parseMetrics Side.target
            :: loopEvents r.evaluators)
    ∧ ∀ id', EvaluatorType.Tps id' ∈ r.evaluators →
        F (EvaluatorType.Tps id') = [] := by
  have h := run_spec_with_tps r env addr idevals bsi tsi lb1 lt1 lb2 lt2
    pb1 pt1 pb2 pt2 tid ftps F hid hpass hbs hts hbm0 htm0 hpb1 hpt1 hfind
    htps hbm1 htm1 hpb2 hpt2 hloop
  refine ⟨by rw [h], ?_, ?_, ?_⟩
  · rw [h]
    simp only [countTpsEvents, phase1Trace, tailTrace, List.countP_append,
      List.countP_cons, List.countP_nil]
    rw [loopTrace_countP env isTpsEvent (fun _ => rfl) (fun _ => rfl)
      (fun _ => rfl)]
    simp [isTpsEvent]
  · rw [h]
    simp [events, phase1Trace, tailTrace, loopTrace_map_event, List.map_append]
  · intro id' hmem
    have hf := hloop _ hmem
    simp [loopFindings] at hf
    exact hf

/-- Witness for C3 at the concrete all-success environment with two Tps
variants configured. -/
theorem C3_tps_runs_once_witness :
    (run wCfg wEnv wAddr).1
      = Except.ok (EvaluationSummary.fromResults
          (wIdPass ++ [{ score := 90, explanation := "tps" }]
            ++ wCfg.evaluators.flatMap wF))
    ∧ countTpsEvents (run wCfg wEnv wAddr).2 = 1
    ∧ events (run wCfg wEnv wAddr).2
      = [Event.evaluateNodeIdentity,
         Event.collectSystemInformation Side.baseline,
         Event.collectSystemInformation Side.target,
         Event.collectMetrics Side.baseline,
         Event.collectMetrics Side.target,
         Event.parseMetrics Side.baseline,
         Event.parseMetrics Side.target]
        ++ [Event.evaluateTps 1]
        ++ (Event.sleepUntil (phase1End wEnv + wCfg.args.metrics_fetch_delay_secs)
            :: Event.collectMetrics Side.baseline
            :: Event.collectMetrics Side.target
            :: Event.parseMetrics Side.baseline
            :: Event.parseMetrics Side.target
            :: loopEvents wCfg.evaluators)
    ∧ wF (EvaluatorType.Tps 3) = [] := by
  have h := C3_tps_runs_once wCfg wEnv wAddr wIdPass
    { info := "baseline sysinfo" } { info := "target sysinfo" }
    ["b0"] ["t0"] ["b1"] ["t1"]
    (wScrapeOf ["b0"]) (wScrapeOf ["t0"]) (wScrapeOf ["b1"]) (wScrapeOf ["t1"])
    1 [{ score := 90, explanation := "tps" }] wF
    rfl (by decide) rfl rfl rfl rfl rfl rfl rfl rfl rfl rfl rfl rfl
    (by intro e he; fin_cases he <;> rfl)
  exact ⟨h.1, h.2.1, h.2.2.1, h.2.2.2 3 (by decide)⟩

/-- Claim C5: on any successful full run the summary's findings appear
in execution order — identity findings first, then Tps findings when a
Tps evaluator is configured, then each remaining configured evaluator's
findings in configured list order (with nothing extra for Tps variants
reached in the loop). -/
theorem C5_summary_ordering (r : BlockingRunner) (env : Env)
    (addr : NodeAddress) (idevals : List Evaluation)
    (bsi tsi : SystemInformation) (lb1 lt1 lb2 lt2 : List String)
    (pb1 pt1 pb2 pt2 : Scrape) (F : EvaluatorType → List Evaluation)
    (hid : env.node_identity_eval (dinput r addr) = Except.ok idevals)
    (hpass : ∀ ev ∈ idevals, ev.score = 100)
    (hbs : env.baseline_system_information = Except.ok bsi)
    (hts : env.target_system_information = Except.ok tsi)
    (hbm0 : env.baseline_metrics 0 = Except.ok lb1)
    (htm0 : env.target_metrics 0 = Except.ok lt1)
    (hpb1 : env.parse_metrics lb1 = Except.ok pb1)
    (hpt1 : env.parse_metrics lt1 = Except.ok pt1)
    (hbm1 : env.baseline_metrics 1 = Except.ok lb2)
    (htm1 : env.target_metrics 1 = Except.ok lt2)
    (hpb2 : env.parse_metrics lb2 = Except.ok pb2)
    (hpt2 : env.parse_metrics lt2 = Except.ok pt2)
    (hloop : ∀ e ∈ r.evaluators,
      loopFindings env (minputOf pb1 pt1 pb2 pt2) (sinputOf bsi tsi)
        (dinput r addr) e = Except.ok (F e)) :
    (∀ tid ftps, r.evaluators.findSome? tpsOf = some tid →
        env.tps_eval tid (dinput r addr) = Except.ok ftps →
        (run r env addr).1 = Except.ok (EvaluationSummary.fromResults
          (idevals ++ ftps ++ r.evaluators.flatMap F)))
    ∧ (r.evaluators.findSome? tpsOf = none →
        (run r env addr).1 = Except.ok (EvaluationSummary.fromResults
          (idevals ++ r.evaluators.flatMap F))) := by
  constructor
  · intro tid ftps hfind htps
    rw [run_spec_with_tps r env addr idevals bsi tsi lb1 lt1 lb2 lt2
      pb1 pt1 pb2 pt2 tid ftps F hid hpass hbs hts hbm0 htm0 hpb1 hpt1 hfind
      htps hbm1 htm1 hpb2 hpt2 hloop]
  · intro hfind
    rw [run_spec_no_tps r env addr idevals bsi tsi lb1 lt1 lb2 lt2
      pb1 pt1 pb2 pt2 F hid hpass hbs hts hbm0 htm0 hpb1 hpt1 hfind
      hbm1 htm1 hpb2 hpt2 hloop]

/-- Witness for C5: the summary ordering at the concrete environment,
once with the Tps-bearing configuration and once without any Tps. -/
theorem C5_summary_ordering_witness :
    (run wCfg wEnv wAddr).1
      = Except.ok (EvaluationSummary.fromResults
          (wIdPass ++ [{ score := 90, explanation := "tps" }]
            ++ wCfg.evaluators.flatMap wF))
    ∧ (run wCfgNoTps wEnv wAddr).1
      = Except.ok (EvaluationSummary.fromResults
          (wIdPass ++ wCfgNoTps.evaluators.flatMap wF)) := by
  have h1 := C5_summary_ordering wCfg wEnv wAddr wIdPass
    { info := "baseline sysinfo" } { info := "target sysinfo" }
    ["b0"] ["t0"] ["b1"] ["t1"]
    (wScrapeOf ["b0"]) (wScrapeOf ["t0"]) (wScrapeOf ["b1"]) (wScrapeOf ["t1"])
    wF rfl (by decide) rfl rfl rfl rfl rfl rfl rfl rfl rfl rfl
    (by intro e he; fin_cases he <;> rfl)
  have h2 := C5_summary_ordering wCfgNoTps wEnv wAddr wIdPass
    { info := "baseline sysinfo" } { info := "target sysinfo" }
    ["b0"] ["t0"] ["b1"] ["t1"]
    (wScrapeOf ["b0"]) (wScrapeOf ["t0"]) (wScrapeOf ["b1"]) (wScrapeOf ["t1"])
    wF rfl (by decide) rfl rfl rfl rfl rfl rfl rfl rfl rfl rfl
    (by intro e he; fin_cases he <;> rfl)
  exact ⟨h1.1 1 [{ score := 90, explanation := "tps" }] rfl rfl, h2.2 rfl⟩

/-- Error propagation through the final evaluator loop: when every
variant of a leading segment succeeds and the remaining segment fails
with some error (from any start state), the whole loop fails with that
error. -/
theorem runEvaluators_error_mono (env : Env) (m : MetricsEvaluatorInput)
    (si : SystemInformationEvaluatorInput) (din : DirectEvaluatorInput)
    (F : EvaluatorType → List Evaluation) :
    ∀ (pre : List EvaluatorType),
      (∀ e ∈ pre, loopFindings env m si din e = Except.ok (F e)) →
      ∀ (rest : List EvaluatorType) (err : RunnerError),
      (∀ s' : RunState,
        (runEvaluators env m si din rest s').1 = Except.error err) →
      ∀ s : RunState,
        (runEvaluators env m si din (pre ++ rest) s).1 = Except.error err := by
  intro pre
  induction pre with
  | nil =>
    intro _ rest err hrest s
    simpa using hrest s
  | cons e pre' ih =>
    intro hpre rest err hrest s
    have he := hpre e (List.mem_cons_self e pre')
    have ihall : ∀ s' : RunState,
        (runEvaluators env m si din (pre' ++ rest) s').1 = Except.error err :=
      ih (fun x hx => hpre x (List.mem_cons_of_mem e hx)) rest err hrest
    cases e with
    | Tps id =>
      rcases hr : runEvaluators env m si din (pre' ++ rest) s with ⟨res, s2⟩
      have hx := ihall s
      rw [hr] at hx
      cases res with
      | error err2 =>
        simp only [List.cons_append, runEvaluators, List.append_eq, hr]
        simpa using hx
      | ok more =>
        exact absurd hx (by simp)
    | Metrics id =>
      have he' : env.metrics_eval id m
          = Except.ok (F (EvaluatorType.Metrics id)) := he
      rcases hr : runEvaluators env m si din (pre' ++ rest)
          (recordEvent env (Event.evaluateMetrics id) s) with ⟨res, s2⟩
      have hx := ihall (recordEvent env (Event.evaluateMetrics id) s)
      rw [hr] at hx
      cases res with
      | error err2 =>
        simp only [List.cons_append, runEvaluators, List.append_eq, he', hr]
        simpa using hx
      | ok more =>
        exact absurd hx (by simp)
    | SystemInformation id =>
      have he' : env.system_information_eval id si
          = Except.ok (F (EvaluatorType.SystemInformation id)) := he
      rcases hr : runEvaluators env m si din (pre' ++ rest)
          (recordEvent env (Event.evaluateSystemInformation id) s) with ⟨res, s2⟩
      have hx := ihall (recordEvent env (Event.evaluateSystemInformation id) s)
      rw [hr] at hx
      cases res with
      | error err2 =>
        simp only [List.cons_append, runEvaluators, List.append_eq, he', hr]
        simpa using hx
      | ok more =>
        exact absurd hx (by simp)
    | Latency id =>
      have he' : env.latency_eval id din
          = Except.ok (F (EvaluatorType.Latency id)) := he
      rcases hr : runEvaluators env m si din (pre' ++ rest)
          (recordEvent env (Event.evaluateLatency id) s) with ⟨res, s2⟩
      have hx := ihall (recordEvent env (Event.evaluateLatency id) s)
      rw [hr] at hx
      cases res with
      | error err2 =>
        simp only [List.cons_append, runEvaluators, List.append_eq, he', hr]
        simpa using hx
      | ok more =>
        exact absurd hx (by simp)

/-- A failing Metrics evaluator at the head of the loop aborts it with
`MetricEvaluatorError` (blocking_runner.rs lines 196-199). -/
theorem runEvaluators_head_metrics_error (env : Env)
    (m : MetricsEvaluatorInput) (si : SystemInformationEvaluatorInput)
    (din : DirectEvaluatorInput) (id : Nat) (post : List EvaluatorType)
    (e : String) (he : env.metrics_eval id m = Except.error e) :
    ∀ s : RunState,
      (runEvaluators env m si din (EvaluatorType.Metrics id :: post) s).1
        = Except.error (RunnerError.MetricEvaluatorError e) := by
  intro s
  simp [runEvaluators, he]

/-- A failing SystemInformation evaluator at the head of the loop aborts
it with `SystemInformationEvaluatorError` (lines 200-203). -/
theorem runEvaluators_head_sysinfo_error (env : Env)
    (m : MetricsEvaluatorInput) (si : SystemInformationEvaluatorInput)
    (din : DirectEvaluatorInput) (id : Nat) (post : List EvaluatorType)
    (e : String) (he : env.system_information_eval id si = Except.error e) :
    ∀ s : RunState,
      (runEvaluators env m si din
          (EvaluatorType.SystemInformation id :: post) s).1
        = Except.error (RunnerError.SystemInformationEvaluatorError e) := by
  intro s
  simp [runEvaluators, he]

/-- A failing Latency evaluator at the head of the loop aborts it with
`LatencyEvaluatorError` (lines 206-209). -/
theorem runEvaluators_head_latency_error (env : Env)
    (m : MetricsEvaluatorInput) (si : SystemInformationEvaluatorInput)
    (din : DirectEvaluatorInput) (id : Nat) (post : List EvaluatorType)
    (e : String) (he : env.latency_eval id din = Except.error e) :
    ∀ s : RunState,
      (runEvaluators env m si din (EvaluatorType.Latency id :: post) s).1
        = Except.error (RunnerError.LatencyEvaluatorError e) := by
  intro s
  simp [runEvaluators, he]

/-- Claim C4: a failure at any stage — identity evaluation, any fetch
(system information or metrics, either side, either round), any parse,
any evaluator execution (Tps or any final-loop variant) — aborts the
whole run with that stage's typed error, and no partial summary is
returned on error; in particular, when the target source fails only on
the second metrics fetch, `run` returns a source-failure error and none
of the findings already produced (identity, Tps) are returned. -/
theorem C4_stage_failures_abort :
    (∀ (r : BlockingRunner) (env : Env) (addr : NodeAddress) (e : String),
      env.node_identity_eval (dinput r addr) = Except.error e →
      (run r env addr).1
        = Except.error (RunnerError.NodeIdentityEvaluatorError e))
    ∧ (∀ (r : BlockingRunner) (env : Env) (addr : NodeAddress)
        (idevals : List Evaluation) (e : String),
        env.node_identity_eval (dinput r addr) = Except.ok idevals →
        (∀ ev ∈ idevals, ev.score = 100) →
        env.baseline_system_information = Except.error e →
        (run r env addr).1
          = Except.error (RunnerError.MetricCollectorError e))
    ∧ (∀ (r : BlockingRunner) (env : Env) (addr : NodeAddress)
        (idevals : List Evaluation) (bsi : SystemInformation) (e : String),
        env.node_identity_eval (dinput r addr) = Except.ok idevals →
        (∀ ev ∈ idevals, ev.score = 100) →
        env.baseline_system_information = Except.ok bsi →
        env.target_system_information = Except.error e →
        (run r env addr).1
          = Except.error (RunnerError.MetricCollectorError e))
    ∧ (∀ (r : BlockingRunner) (env : Env) (addr : NodeAddress)
        (idevals : List Evaluation) (bsi tsi : SystemInformation) (e : String),
        env.node_identity_eval (dinput r addr) = Except.ok idevals →
        (∀ ev ∈ idevals, ev.score = 100) →
        env.baseline_system_information = Except.ok bsi →
        env.target_system_information = Except.ok tsi →
        env.baseline_metrics 0 = Except.error e →
        (run r env addr).1
          = Except.error (RunnerError.MetricCollectorError e))
    ∧ (∀ (r : BlockingRunner) (env : Env) (addr : NodeAddress)
        (idevals : List Evaluation) (bsi tsi : SystemInformation)
        (lb1 : List String) (e : String),
        env.node_identity_eval (dinput r addr) = Except.ok idevals →
        (∀ ev ∈ idevals, ev.score = 100) →
        env.baseline_system_information = Except.ok bsi →
        env.target_system_information = Except.ok tsi →
        env.baseline_metrics 0 = Except.ok lb1 →
        env.target_metrics 0 = Except.error e →
        (run r env addr).1
          = Except.error (RunnerError.MetricCollectorError e))
    ∧ (∀ (r : BlockingRunner) (env : Env) (addr : NodeAddress)
        (idevals : List Evaluation) (bsi tsi : SystemInformation)
        (lb1 lt1 : List String) (e : String),
        env.node_identity_eval (dinput r addr) = Except.ok idevals →
        (∀ ev ∈ idevals, ev.score = 100) →
        env.baseline_system_information = Except.ok bsi →
        env.target_system_information = Except.ok tsi →
        env.baseline_metrics 0 = Except.ok lb1 →
        env.target_metrics 0 = Except.ok lt1 →
        env.parse_metrics lb1 = Except.error e →
        (run r env addr).1
          = Except.error (RunnerError.ParseMetricsError e))
    ∧ (∀ (r : BlockingRunner) (env : Env) (addr : NodeAddress)
        (idevals : List Evaluation) (bsi tsi : SystemInformation)
        (lb1 lt1 : List String) (pb1 : Scrape) (e : String),
        env.node_identity_eval (dinput r addr) = Except.ok idevals →
        (∀ ev ∈ idevals, ev.score = 100) →
        env.baseline_system_information = Except.ok bsi →
        env.target_system_information = Except.ok tsi →
        env.baseline_metrics 0 = Except.ok lb1 →
        env.target_metrics 0 = Except.ok lt1 →
        env.parse_metrics lb1 = Except.ok pb1 →
        env.parse_metrics lt1 = Except.error e →
        (run r env addr).1
          = Except.error (RunnerError.ParseMetricsError e))
    ∧ (∀ (r : BlockingRunner) (env : Env) (addr : NodeAddress)
        (idevals : List Evaluation) (bsi tsi : SystemInformation)
        (lb1 lt1 : List String) (pb1 pt1 : Scrape) (tid : Nat) (e : String),
        env.node_identity_eval (dinput r addr) = Except.ok idevals →
        (∀ ev ∈ idevals, ev.score = 100) →
        env.baseline_system_information = Except.ok bsi →
        env.target_system_information = Except.ok tsi →
        env.baseline_metrics 0 = Except.ok lb1 →
        env.target_metrics 0 = Except.ok lt1 →
        env.parse_metrics lb1 = Except.ok pb1 →
        env.parse_metrics lt1 = Except.ok pt1 →
        r.evaluators.findSome? tpsOf = some tid →
        env.tps_eval tid (dinput r addr) = Except.error e →
        (run r env addr).1
          = Except.error (RunnerError.TpsEvaluatorError e))
    ∧ (∀ (r : BlockingRunner) (env : Env) (addr : NodeAddress)
        (idevals : List Evaluation) (bsi tsi : SystemInformation)
        (lb1 lt1 : List String) (pb1 pt1 : Scrape) (e : String),
        env.node_identity_eval (dinput r addr) = Except.ok idevals →
        (∀ ev ∈ idevals, ev.score = 100) →
        env.baseline_system_information = Except.ok bsi →
        env.target_system_information = Except.ok tsi →
        env.baseline_metrics 0 = Except.ok lb1 →
        env.target_metrics 0 = Except.ok lt1 →
        env.parse_metrics lb1 = Except.ok pb1 →
        env.parse_metrics lt1 = Except.ok pt1 →
        (∀ tid, r.evaluators.findSome? tpsOf = some tid →
          ∃ ftps, env.tps_eval tid (dinput r addr) = Except.ok ftps) →
        env.baseline_metrics 1 = Except.error e →
        (run r env addr).1
          = Except.error (RunnerError.MetricCollectorError e))
    ∧ (∀ (r : BlockingRunner) (env : Env) (addr : NodeAddress)
        (idevals : List Evaluation) (bsi tsi : SystemInformation)
        (lb1 lt1 lb2 : List String) (pb1 pt1 : Scrape) (e : String),
        env.node_identity_eval (dinput r addr) = Except.ok idevals →
        (∀ ev ∈ idevals, ev.score = 100) →
        env.baseline_system_information = Except.ok bsi →
        env.target_system_information = Except.ok tsi →
        env.baseline_metrics 0 = Except.ok lb1 →
        env.target_metrics 0 = Except.ok lt1 →
        env.parse_metrics lb1 = Except.ok pb1 →
        env.parse_metrics lt1 = Except.ok pt1 →
        (∀ tid, r.evaluators.findSome? tpsOf = some tid →
          ∃ ftps, env.tps_eval tid (dinput r addr) = Except.ok ftps) →
        env.baseline_metrics 1 = Except.ok lb2 →
        env.target_metrics 1 = Except.error e →
        (run r env addr).1
          = Except.error (RunnerError.MetricCollectorError e))
    ∧ (∀ (r : BlockingRunner) (env : Env) (addr : NodeAddress)
        (idevals : List Evaluation) (bsi tsi : SystemInformation)
        (lb1 lt1 lb2 lt2 : List String) (pb1 pt1 : Scrape) (e : String),
        env.node_identity_eval (dinput r addr) = Except.ok idevals →
        (∀ ev ∈ idevals, ev.score = 100) →
        env.baseline_system_information = Except.ok bsi →
        env.target_system_information = Except.ok tsi →
        env.baseline_metrics 0 = Except.ok lb1 →
        env.target_metrics 0 = Except.ok lt1 →
        env.parse_metrics lb1 = Except.ok pb1 →
        env.parse_metrics lt1 = Except.ok pt1 →
        (∀ tid, r.evaluators.findSome? tpsOf = some tid →
          ∃ ftps, env.tps_eval tid (dinput r addr) = Except.ok ftps) →
        env.baseline_metrics 1 = Except.ok lb2 →
        env.target_metrics 1 = Except.ok lt2 →
        env.parse_metrics lb2 = Except.error e →
        (run r env addr).1
          = Except.error (RunnerError.ParseMetricsError e))
    ∧ (∀ (r : BlockingRunner) (env : Env) (addr : NodeAddress)
        (idevals : List Evaluation) (bsi tsi : SystemInformation)
        (lb1 lt1 lb2 lt2 : List String) (pb1 pt1 pb2 : Scrape) (e : String),
        env.node_identity_eval (dinput r addr) = Except.ok idevals →
        (∀ ev ∈ idevals, ev.score = 100) →
        env.baseline_system_information = Except.ok bsi →
        env.target_system_information = Except.ok tsi →
        env.baseline_metrics 0 = Except.ok lb1 →
        env.target_metrics 0 = Except.ok lt1 →
        env.parse_metrics lb1 = Except.ok pb1 →
        env.parse_metrics lt1 = Except.ok pt1 →
        (∀ tid, r.evaluators.findSome? tpsOf = some tid →
          ∃ ftps, env.tps_eval tid (dinput r addr) = Except.ok ftps) →
        env.baseline_metrics 1 = Except.ok lb2 →
        env.target_metrics 1 = Except.ok lt2 →
        env.parse_metrics lb2 = Except.ok pb2 →
        env.parse_metrics lt2 = Except.error e →
        (run r env addr).1
          = Except.error (RunnerError.ParseMetricsError e))
    ∧ (∀ (r : BlockingRunner) (env : Env) (addr : NodeAddress)
        (idevals : List Evaluation) (bsi tsi : SystemInformation)
        (lb1 lt1 lb2 lt2 : List String) (pb1 pt1 pb2 pt2 : Scrape)
        (F : EvaluatorType → List Evaluation)
        (pre post : List EvaluatorType) (id : Nat) (e : String),
        env.node_identity_eval (dinput r addr) = Except.ok idevals →
        (∀ ev ∈ idevals, ev.score = 100) →
        env.baseline_system_information = Except.ok bsi →
        env.target_system_information = Except.ok tsi →
        env.baseline_metrics 0 = Except.ok lb1 →
        env.target_metrics 0 = Except.ok lt1 →
        env.parse_metrics lb1 = Except.ok pb1 →
        env.parse_metrics lt1 = Except.ok pt1 →
        (∀ tid, r.evaluators.findSome? tpsOf = some tid →
          ∃ ftps, env.tps_eval tid (dinput r addr) = Except.ok ftps) →
        env.baseline_metrics 1 = Except.ok lb2 →
        env.target_metrics 1 = Except.ok lt2 →
        env.parse_metrics lb2 = Except.ok pb2 →
        env.parse_metrics lt2 = Except.ok pt2 →
        r.evaluators = pre ++ EvaluatorType.Metrics id :: post →
        (∀ x ∈ pre, loopFindings env (minputOf pb1 pt1 pb2 pt2)
          (sinputOf bsi tsi) (dinput r addr) x = Except.ok (F x)) →
        env.metrics_eval id (minputOf pb1 pt1 pb2 pt2) = Except.error e →
        (run r env addr).1
          = Except.error (RunnerError.MetricEvaluatorError e))
    ∧ (∀ (r : BlockingRunner) (env : Env) (addr : NodeAddress)
        (idevals : List Evaluation) (bsi tsi : SystemInformation)
        (lb1 lt1 lb2 lt2 : List String) (pb1 pt1 pb2 pt2 : Scrape)
        (F : EvaluatorType → List Evaluation)
        (pre post : List EvaluatorType) (id : Nat) (e : String),
        env.node_identity_eval (dinput r addr) = Except.ok idevals →
        (∀ ev ∈ idevals, ev.score = 100) →
        env.baseline_system_information = Except.ok bsi →
        env.target_system_information = Except.ok tsi →
        env.baseline_metrics 0 = Except.ok lb1 →
        env.target_metrics 0 = Except.ok lt1 →
        env.parse_metrics lb1 = Except.ok pb1 →
        env.parse_metrics lt1 = Except.ok pt1 →
        (∀ tid, r.evaluators.findSome? tpsOf = some tid →
          ∃ ftps, env.tps_eval tid (dinput r addr) = Except.ok ftps) →
        env.baseline_metrics 1 = Except.ok lb2 →
        env.target_metrics 1 = Except.ok lt2 →
        env.parse_metrics lb2 = Except.ok pb2 →
        env.parse_metrics lt2 = Except.ok pt2 →
        r.evaluators = pre ++ EvaluatorType.SystemInformation id :: post →
        (∀ x ∈ pre, loopFindings env (minputOf pb1 pt1 pb2 pt2)
          (sinputOf bsi tsi) (dinput r addr) x = Except.ok (F x)) →
        env.system_information_eval id (sinputOf bsi tsi) = Except.error e →
        (run r env addr).1
          = Except.error (RunnerError.SystemInformationEvaluatorError e))
    ∧ (∀ (r : BlockingRunner) (env : Env) (addr : NodeAddress)
        (idevals : List Evaluation) (bsi tsi : SystemInformation)
        (lb1 lt1 lb2 lt2 : List String) (pb1 pt1 pb2 pt2 : Scrape)
        (F : EvaluatorType → List Evaluation)
        (pre post : List EvaluatorType) (id : Nat) (e : String),
        env.node_identity_eval (dinput r addr) = Except.ok idevals →
        (∀ ev ∈ idevals, ev.score = 100) →
        env.baseline_system_information = Except.ok bsi →
        env.target_system_information = Except.ok tsi →
        env.baseline_metrics 0 = Except.ok lb1 →
        env.target_metrics 0 = Except.ok lt1 →
        env.parse_metrics lb1 = Except.ok pb1 →
        env.parse_metrics lt1 = Except.ok pt1 →
        (∀ tid, r.evaluators.findSome? tpsOf = some tid →
          ∃ ftps, env.tps_eval tid (dinput r addr) = Except.ok ftps) →
        env.baseline_metrics 1 = Except.ok lb2 →
        env.target_metrics 1 = Except.ok lt2 →
        env.parse_metrics lb2 = Except.ok pb2 →
        env.parse_metrics lt2 = Except.ok pt2 →
        r.evaluators = pre ++ EvaluatorType.Latency id :: post →
        (∀ x ∈ pre, loopFindings env (minputOf pb1 pt1 pb2 pt2)
          (sinputOf bsi tsi) (dinput r addr) x = Except.ok (F x)) →
        env.latency_eval id (dinput r addr) = Except.error e →
        (run r env addr).1
          = Except.error (RunnerError.LatencyEvaluatorError e))
    ∧ (∀ (r : BlockingRunner) (env : Env) (addr : NodeAddress)
        (err : RunnerError),
        (run r env addr).1 = Except.error err →
        ∀ summary, (run r env addr).1 ≠ Except.ok summary) := by
  refine ⟨?_, ?_, ?_, ?_, ?_, ?_, ?_, ?_, ?_, ?_, ?_, ?_, ?_, ?_, ?_, ?_⟩
  · intro r env addr e hid
    simp only [dinput] at hid
    simp [run, hid, recordEvent, initialRunState]
  · intro r env addr idevals e hid hpass hbs
    have hany : idevals.any (fun x => x.score != 100) = false := by
      rw [List.any_eq_false]
      intro ev hev
      simp [hpass ev hev]
    simp only [dinput] at hid
    simp [run, hid, hany, hbs, recordEvent, initialRunState]
  · intro r env addr idevals bsi e hid hpass hbs hts
    have hany : idevals.any (fun x => x.score != 100) = false := by
      rw [List.any_eq_false]
      intro ev hev
      simp [hpass ev hev]
    simp only [dinput] at hid
    simp [run, hid, hany, hbs, hts, recordEvent, initialRunState]
  · intro r env addr idevals bsi tsi e hid hpass hbs hts hbm0
    have hany : idevals.any (fun x => x.score != 100) = false := by
      rw [List.any_eq_false]
      intro ev hev
      simp [hpass ev hev]
    simp only [dinput] at hid
    simp [run, hid, hany, hbs, hts, hbm0, collect_metrics_baseline,
      recordEvent, initialRunState, Except.mapError]
  · intro r env addr idevals bsi tsi lb1 e hid hpass hbs hts hbm0 htm0
    have hany : idevals.any (fun x => x.score != 100) = false := by
      rw [List.any_eq_false]
      intro ev hev
      simp [hpass ev hev]
    simp only [dinput] at hid
    simp [run, hid, hany, hbs, hts, hbm0, htm0, collect_metrics_baseline,
      collect_metrics_target, recordEvent, initialRunState, Except.mapError]
  · intro r env addr idevals bsi tsi lb1 lt1 e hid hpass hbs hts hbm0 htm0 hpb1
    have hany : idevals.any (fun x => x.score != 100) = false := by
      rw [List.any_eq_false]
      intro ev hev
      simp [hpass ev hev]
    simp only [dinput] at hid
    simp [run, hid, hany, hbs, hts, hbm0, htm0, hpb1, collect_metrics_baseline,
      collect_metrics_target, parse_response, recordEvent, initialRunState,
      Except.mapError]
  · intro r env addr idevals bsi tsi lb1 lt1 pb1 e hid hpass hbs hts hbm0 htm0
      hpb1 hpt1
    have hany : idevals.any (fun x => x.score != 100) = false := by
      rw [List.any_eq_false]
      intro ev hev
      simp [hpass ev hev]
    simp only [dinput] at hid
    simp [run, hid, hany, hbs, hts, hbm0, htm0, hpb1, hpt1,
      collect_metrics_baseline, collect_metrics_target, parse_response,
      recordEvent, initialRunState, Except.mapError]
  · intro r env addr idevals bsi tsi lb1 lt1 pb1 pt1 tid e hid hpass hbs hts
      hbm0 htm0 hpb1 hpt1 hfind htps
    have hany : idevals.any (fun x => x.score != 100) = false := by
      rw [List.any_eq_false]
      intro ev hev
      simp [hpass ev hev]
    simp only [dinput] at hid htps
    simp [run, hid, hany, hbs, hts, hbm0, htm0, hpb1, hpt1, hfind, htps,
      collect_metrics_baseline, collect_metrics_target, parse_response,
      recordEvent, initialRunState, Except.mapError]
  · intro r env addr idevals bsi tsi lb1 lt1 pb1 pt1 e hid hpass hbs hts hbm0
      htm0 hpb1 hpt1 htpsOk hbm1
    have hany : idevals.any (fun x => x.score != 100) = false := by
      rw [List.any_eq_false]
      intro ev hev
      simp [hpass ev hev]
    simp only [dinput] at hid htpsOk
    rcases hf : r.evaluators.findSome? tpsOf with _ | tid
    · simp [run, hid, hany, hbs, hts, hbm0, htm0, hpb1, hpt1, hf, hbm1,
        collect_metrics_baseline, collect_metrics_target, parse_response,
        recordEvent, initialRunState, Except.mapError, run_after_tps,
        sleep_until]
    · obtain ⟨ftps, htps⟩ := htpsOk tid hf
      simp [run, hid, hany, hbs, hts, hbm0, htm0, hpb1, hpt1, hf, htps, hbm1,
        collect_metrics_baseline, collect_metrics_target, parse_response,
        recordEvent, initialRunState, Except.mapError, run_after_tps,
        sleep_until]
  · intro r env addr idevals bsi tsi lb1 lt1 lb2 pb1 pt1 e hid hpass hbs hts
      hbm0 htm0 hpb1 hpt1 htpsOk hbm1 htm1
    have hany : idevals.any (fun x => x.score != 100) = false := by
      rw [List.any_eq_false]
      intro ev hev
      simp [hpass ev hev]
    simp only [dinput] at hid htpsOk
    rcases hf : r.evaluators.findSome? tpsOf with _ | tid
    · simp [run, hid, hany, hbs, hts, hbm0, htm0, hpb1, hpt1, hf, hbm1, htm1,
        collect_metrics_baseline, collect_metrics_target, parse_response,
        recordEvent, initialRunState, Except.mapError, run_after_tps,
        sleep_until]
    · obtain ⟨ftps, htps⟩ := htpsOk tid hf
      simp [run, hid, hany, hbs, hts, hbm0, htm0, hpb1, hpt1, hf, htps, hbm1,
        htm1, collect_metrics_baseline, collect_metrics_target, parse_response,
        recordEvent, initialRunState, Except.mapError, run_after_tps,
        sleep_until]
  · intro r env addr idevals bsi tsi lb1 lt1 lb2 lt2 pb1 pt1 e hid hpass hbs
      hts hbm0 htm0 hpb1 hpt1 htpsOk hbm1 htm1 hpb2
    have hany : idevals.any (fun x => x.score != 100) = false := by
      rw [List.any_eq_false]
      intro ev hev
      simp [hpass ev hev]
    simp only [dinput] at hid htpsOk
    rcases hf : r.evaluators.findSome? tpsOf with _ | tid
    · simp [run, hid, hany, hbs, hts, hbm0, htm0, hpb1, hpt1, hf, hbm1, htm1,
        hpb2, collect_metrics_baseline, collect_metrics_target, parse_response,
        recordEvent, initialRunState, Except.mapError, run_after_tps,
        sleep_until]
    · obtain ⟨ftps, htps⟩ := htpsOk tid hf
      simp [run, hid, hany, hbs, hts, hbm0, htm0, hpb1, hpt1, hf, htps, hbm1,
        htm1, hpb2, collect_metrics_baseline, collect_metrics_target,
        parse_response, recordEvent, initialRunState, Except.mapError,
        run_after_tps, sleep_until]
  · intro r env addr idevals bsi tsi lb1 lt1 lb2 lt2 pb1 pt1 pb2 e hid hpass
      hbs hts hbm0 htm0 hpb1 hpt1 htpsOk hbm1 htm1 hpb2 hpt2
    have hany : idevals.any (fun x => x.score != 100) = false := by
      rw [List.any_eq_false]
      intro ev hev
      simp [hpass ev hev]
    simp only [dinput] at hid htpsOk
    rcases hf : r.evaluators.findSome? tpsOf with _ | tid
    · simp [run, hid, hany, hbs, hts, hbm0, htm0, hpb1, hpt1, hf, hbm1, htm1,
        hpb2, hpt2, collect_metrics_baseline, collect_metrics_target,
        parse_response, recordEvent, initialRunState, Except.mapError,
        run_after_tps, sleep_until]
    · obtain ⟨ftps, htps⟩ := htpsOk tid hf
      simp [run, hid, hany, hbs, hts, hbm0, htm0, hpb1, hpt1, hf, htps, hbm1,
        htm1, hpb2, hpt2, collect_metrics_baseline, collect_metrics_target,
        parse_response, recordEvent, initialRunState, Except.mapError,
        run_after_tps, sleep_until]
  · intro r env addr idevals bsi tsi lb1 lt1 lb2 lt2 pb1 pt1 pb2 pt2 F pre
      post id e hid hpass hbs hts hbm0 htm0 hpb1 hpt1 htpsOk hbm1 htm1 hpb2
      hpt2 hlist hpresucc hev
    have hany : idevals.any (fun x => x.score != 100) = false := by
      rw [List.any_eq_false]
      intro ev hev'
      simp [hpass ev hev']
    simp only [dinput] at hid htpsOk
    simp only [minputOf, sinputOf, dinput] at hpresucc hev
    have herr : ∀ s' : RunState,
        (runEvaluators env
          { previous_baseline_metrics := pb1, previous_target_metrics := pt1,
            latest_baseline_metrics := pb2, latest_target_metrics := pt2 }
          { baseline_system_information := bsi,
            target_system_information := tsi }
          { baseline_node_information := r.baseline_node_information,
            target_node_address := addr }
          (pre ++ EvaluatorType.Metrics id :: post) s').1
          = Except.error (RunnerError.MetricEvaluatorError e) :=
      runEvaluators_error_mono env _ _ _ F pre hpresucc _ _
        (runEvaluators_head_metrics_error env _ _ _ id post e hev)
    rcases hf : r.evaluators.findSome? tpsOf with _ | tid
    · simp only [run, hid, hany, hbs, hts, hbm0, htm0, hpb1, hpt1, hf, hbm1,
        htm1, hpb2, hpt2, collect_metrics_baseline, collect_metrics_target,
        parse_response, recordEvent, initialRunState, Except.mapError,
        run_after_tps, sleep_until, Bool.false_eq_true, if_false, ite_false,
        Nat.zero_add, Nat.add_zero]
      rw [hlist]
      split
      next err2 s14 heq =>
        have h1 := congrArg Prod.fst heq
        dsimp only at h1
        rw [herr] at h1
        injection h1 with h2
        dsimp only
        rw [← h2]
      next more s14 heq =>
        have h1 := congrArg Prod.fst heq
        dsimp only at h1
        rw [herr] at h1
        exact absurd h1 (by simp)
    · obtain ⟨ftps, htps⟩ := htpsOk tid hf
      simp only [run, hid, hany, hbs, hts, hbm0, htm0, hpb1, hpt1, hf, htps,
        hbm1, htm1, hpb2, hpt2, collect_metrics_baseline,
        collect_metrics_target, parse_response, recordEvent, initialRunState,
        Except.mapError, run_after_tps, sleep_until, Bool.false_eq_true,
        if_false, ite_false, Nat.zero_add, Nat.add_zero]
      rw [hlist]
      split
      next err2 s14 heq =>
        have h1 := congrArg Prod.fst heq
        dsimp only at h1
        rw [herr] at h1
        injection h1 with h2
        dsimp only
        rw [← h2]
      next more s14 heq =>
        have h1 := congrArg Prod.fst heq
        dsimp only at h1
        rw [herr] at h1
        exact absurd h1 (by simp)
  · intro r env addr idevals bsi tsi lb1 lt1 lb2 lt2 pb1 pt1 pb2 pt2 F pre
      post id e hid hpass hbs hts hbm0 htm0 hpb1 hpt1 htpsOk hbm1 htm1 hpb2
      hpt2 hlist hpresucc hev
    have hany : idevals.any (fun x => x.score != 100) = false := by
      rw [List.any_eq_false]
      intro ev hev'
      simp [hpass ev hev']
    simp only [dinput] at hid htpsOk
    simp only [minputOf, sinputOf, dinput] at hpresucc hev
    have herr : ∀ s' : RunState,
        (runEvaluators env
          { previous_baseline_metrics := pb1, previous_target_metrics := pt1,
            latest_baseline_metrics := pb2, latest_target_metrics := pt2 }
          { baseline_system_information := bsi,
            target_system_information := tsi }
          { baseline_node_information := r.baseline_node_information,
            target_node_address := addr }
          (pre ++ EvaluatorType.SystemInformation id :: post) s').1
          = Except.error (RunnerError.SystemInformationEvaluatorError e) :=
      runEvaluators_error_mono env _ _ _ F pre hpresucc _ _
        (runEvaluators_head_sysinfo_error env _ _ _ id post e hev)
    rcases hf : r.evaluators.findSome? tpsOf with _ | tid
    · simp only [run, hid, hany, hbs, hts, hbm0, htm0, hpb1, hpt1, hf, hbm1,
        htm1, hpb2, hpt2, collect_metrics_baseline, collect_metrics_target,
        parse_response, recordEvent, initialRunState, Except.mapError,
        run_after_tps, sleep_until, Bool.false_eq_true, if_false, ite_false,
        Nat.zero_add, Nat.add_zero]
      rw [hlist]
      split
      next err2 s14 heq =>
        have h1 := congrArg Prod.fst heq
        dsimp only at h1
        rw [herr] at h1
        injection h1 with h2
        dsimp only
        rw [← h2]
      next more s14 heq =>
        have h1 := congrArg Prod.fst heq
        dsimp only at h1
        rw [herr] at h1
        exact absurd h1 (by simp)
    · obtain ⟨ftps, htps⟩ := htpsOk tid hf
      simp only [run, hid, hany, hbs, hts, hbm0, htm0, hpb1, hpt1, hf, htps,
        hbm1, htm1, hpb2, hpt2, collect_metrics_baseline,
        collect_metrics_target, parse_response, recordEvent, initialRunState,
        Except.mapError, run_after_tps, sleep_until, Bool.false_eq_true,
        if_false, ite_false, Nat.zero_add, Nat.add_zero]
      rw [hlist]
      split
      next err2 s14 heq =>
        have h1 := congrArg Prod.fst heq
        dsimp only at h1
        rw [herr] at h1
        injection h1 with h2
        dsimp only
        rw [← h2]
      next more s14 heq =>
        have h1 := congrArg Prod.fst heq
        dsimp only at h1
        rw [herr] at h1
        exact absurd h1 (by simp)
  · intro r env addr idevals bsi tsi lb1 lt1 lb2 lt2 pb1 pt1 pb2 pt2 F pre
      post id e hid hpass hbs hts hbm0 htm0 hpb1 hpt1 htpsOk hbm1 htm1 hpb2
      hpt2 hlist hpresucc hev
    have hany : idevals.any (fun x => x.score != 100) = false := by
      rw [List.any_eq_false]
      intro ev hev'
      simp [hpass ev hev']
    simp only [dinput] at hid htpsOk
    simp only [minputOf, sinputOf, dinput] at hpresucc hev
    have herr : ∀ s' : RunState,
        (runEvaluators env
          { previous_baseline_metrics := pb1, previous_target_metrics := pt1,
            latest_baseline_metrics := pb2, latest_target_metrics := pt2 }
          { baseline_system_information := bsi,
            target_system_information := tsi }
          { baseline_node_information := r.baseline_node_information,
            target_node_address := addr }
          (pre ++ EvaluatorType.Latency id :: post) s').1
          = Except.error (RunnerError.LatencyEvaluatorError e) :=
      runEvaluators_error_mono env _ _ _ F pre hpresucc _ _
        (runEvaluators_head_latency_error env _ _ _ id post e hev)
    rcases hf : r.evaluators.findSome? tpsOf with _ | tid
    · simp only [run, hid, hany, hbs, hts, hbm0, htm0, hpb1, hpt1, hf, hbm1,
        htm1, hpb2, hpt2, collect_metrics_baseline, collect_metrics_target,
        parse_response, recordEvent, initialRunState, Except.mapError,
        run_after_tps, sleep_until, Bool.false_eq_true, if_false, ite_false,
        Nat.zero_add, Nat.add_zero]
      rw [hlist]
      split
      next err2 s14 heq =>
        have h1 := congrArg Prod.fst heq
        dsimp only at h1
        rw [herr] at h1
        injection h1 with h2
        dsimp only
        rw [← h2]
      next more s14 heq =>
        have h1 := congrArg Prod.fst heq
        dsimp only at h1
        rw [herr] at h1
        exact absurd h1 (by simp)
    · obtain ⟨ftps, htps⟩ := htpsOk tid hf
      simp only [run, hid, hany, hbs, hts, hbm0, htm0, hpb1, hpt1, hf, htps,
        hbm1, htm1, hpb2, hpt2, collect_metrics_baseline,
        collect_metrics_target, parse_response, recordEvent, initialRunState,
        Except.mapError, run_after_tps, sleep_until, Bool.false_eq_true,
        if_false, ite_false, Nat.zero_add, Nat.add_zero]
      rw [hlist]
      split
      next err2 s14 heq =>
        have h1 := congrArg Prod.fst heq
        dsimp only at h1
        rw [herr] at h1
        injection h1 with h2
        dsimp only
        rw [← h2]
      next more s14 heq =>
        have h1 := congrArg Prod.fst heq
        dsimp only at h1
        rw [herr] at h1
        exact absurd h1 (by simp)
  · intro r env addr err herr summary hc
    rw [herr] at hc
    exact Except.noConfusion hc

/-- Witness for C4: concrete runs failing at each stage — identity
evaluation, each fetch spot, each parse spot, the Tps evaluator, and
each final-loop evaluator kind — each aborting with its own typed
error, and an errored run yielding no summary. -/
theorem C4_stage_failures_abort_witness :
    (run wCfg wEnvFailId wAddr).1
      = Except.error (RunnerError.NodeIdentityEvaluatorError "identity eval down")
    ∧ (run wCfg wEnvFailBsi wAddr).1
      = Except.error (RunnerError.MetricCollectorError "baseline sysinfo down")
    ∧ (run wCfg wEnvFailTsi wAddr).1
      = Except.error (RunnerError.MetricCollectorError "target sysinfo down")
    ∧ (run wCfg wEnvFailFetchB1 wAddr).1
      = Except.error (RunnerError.MetricCollectorError "baseline fetch down")
    ∧ (run wCfg wEnvFailFetchT1 wAddr).1
      = Except.error (RunnerError.MetricCollectorError "target fetch down")
    ∧ (run wCfg wEnvParseB1 wAddr).1
      = Except.error (RunnerError.ParseMetricsError "bad b0")
    ∧ (run wCfg wEnvParseT1 wAddr).1
      = Except.error (RunnerError.ParseMetricsError "bad t0")
    ∧ (run wCfg wEnvFailTps wAddr).1
      = Except.error (RunnerError.TpsEvaluatorError "tps down")
    ∧ (run wCfg wEnvFailSecondBaseline wAddr).1
      = Except.error (RunnerError.MetricCollectorError "baseline down")
    ∧ (run wCfg wEnvFailSecondTarget wAddr).1
      = Except.error (RunnerError.MetricCollectorError "target down")
    ∧ (run wCfg wEnvParseB2 wAddr).1
      = Except.error (RunnerError.ParseMetricsError "bad b1")
    ∧ (run wCfg wEnvParseT2 wAddr).1
      = Except.error (RunnerError.ParseMetricsError "bad t1")
    ∧ (run wCfg wEnvFailMetricsEval wAddr).1
      = Except.error (RunnerError.MetricEvaluatorError "metrics eval down")
    ∧ (run wCfg wEnvFailSysEval wAddr).1
      = Except.error
          (RunnerError.SystemInformationEvaluatorError "sysinfo eval down")
    ∧ (run wCfg wEnvFailLatencyEval wAddr).1
      = Except.error (RunnerError.LatencyEvaluatorError "latency eval down")
    ∧ (run wCfg wEnvFailBsi wAddr).1
      ≠ Except.ok (EvaluationSummary.fromResults wIdPass) := by
  obtain ⟨h1, h2, h3, h4, h5, h6, h7, h8, h9, h10, h11, h12, h13, h14, h15,
    h16⟩ := C4_stage_failures_abort
  refine ⟨?_, ?_, ?_, ?_, ?_, ?_, ?_, ?_, ?_, ?_, ?_, ?_, ?_, ?_, ?_, ?_⟩
  · exact h1 wCfg wEnvFailId wAddr "identity eval down" rfl
  · exact h2 wCfg wEnvFailBsi wAddr wIdPass "baseline sysinfo down" rfl
      (by decide) rfl
  · exact h3 wCfg wEnvFailTsi wAddr wIdPass { info := "baseline sysinfo" }
      "target sysinfo down" rfl (by decide) rfl rfl
  · exact h4 wCfg wEnvFailFetchB1 wAddr wIdPass { info := "baseline sysinfo" }
      { info := "target sysinfo" } "baseline fetch down" rfl (by decide)
      rfl rfl rfl
  · exact h5 wCfg wEnvFailFetchT1 wAddr wIdPass { info := "baseline sysinfo" }
      { info := "target sysinfo" } ["b0"] "target fetch down" rfl (by decide)
      rfl rfl rfl rfl
  · exact h6 wCfg wEnvParseB1 wAddr wIdPass { info := "baseline sysinfo" }
      { info := "target sysinfo" } ["b0"] ["t0"] "bad b0" rfl (by decide)
      rfl rfl rfl rfl rfl
  · exact h7 wCfg wEnvParseT1 wAddr wIdPass { info := "baseline sysinfo" }
      { info := "target sysinfo" } ["b0"] ["t0"] (wScrapeOf ["b0"]) "bad t0"
      rfl (by decide) rfl rfl rfl rfl rfl rfl
  · exact h8 wCfg wEnvFailTps wAddr wIdPass { info := "baseline sysinfo" }
      { info := "target sysinfo" } ["b0"] ["t0"] (wScrapeOf ["b0"])
      (wScrapeOf ["t0"]) 1 "tps down" rfl (by decide) rfl rfl rfl rfl rfl rfl
      rfl rfl
  · exact h9 wCfg wEnvFailSecondBaseline wAddr wIdPass
      { info := "baseline sysinfo" } { info := "target sysinfo" }
      ["b0"] ["t0"] (wScrapeOf ["b0"]) (wScrapeOf ["t0"]) "baseline down"
      rfl (by decide) rfl rfl rfl rfl rfl rfl
      (fun _ _ => ⟨[{ score := 90, explanation := "tps" }], rfl⟩) rfl
  · exact h10 wCfg wEnvFailSecondTarget wAddr wIdPass
      { info := "baseline sysinfo" } { info := "target sysinfo" }
      ["b0"] ["t0"] ["b1"] (wScrapeOf ["b0"]) (wScrapeOf ["t0"]) "target down"
      rfl (by decide) rfl rfl rfl rfl rfl rfl
      (fun _ _ => ⟨[{ score := 90, explanation := "tps" }], rfl⟩) rfl rfl
  · exact h11 wCfg wEnvParseB2 wAddr wIdPass { info := "baseline sysinfo" }
      { info := "target sysinfo" } ["b0"] ["t0"] ["b1"] ["t1"]
      (wScrapeOf ["b0"]) (wScrapeOf ["t0"]) "bad b1"
      rfl (by decide) rfl rfl rfl rfl rfl rfl
      (fun _ _ => ⟨[{ score := 90, explanation := "tps" }], rfl⟩) rfl rfl rfl
  · exact h12 wCfg wEnvParseT2 wAddr wIdPass { info := "baseline sysinfo" }
      { info := "target sysinfo" } ["b0"] ["t0"] ["b1"] ["t1"]
      (wScrapeOf ["b0"]) (wScrapeOf ["t0"]) (wScrapeOf ["b1"]) "bad t1"
      rfl (by decide) rfl rfl rfl rfl rfl rfl
      (fun _ _ => ⟨[{ score := 90, explanation := "tps" }], rfl⟩) rfl rfl rfl
      rfl
  · exact h13 wCfg wEnvFailMetricsEval wAddr wIdPass
      { info := "baseline sysinfo" } { info := "target sysinfo" }
      ["b0"] ["t0"] ["b1"] ["t1"] (wScrapeOf ["b0"]) (wScrapeOf ["t0"])
      (wScrapeOf ["b1"]) (wScrapeOf ["t1"]) wF []
      [EvaluatorType.Tps 1, EvaluatorType.Latency 2, EvaluatorType.Tps 3,
        EvaluatorType.SystemInformation 4] 0 "metrics eval down"
      rfl (by decide) rfl rfl rfl rfl rfl rfl
      (fun _ _ => ⟨[{ score := 90, explanation := "tps" }], rfl⟩) rfl rfl rfl
      rfl rfl (fun x hx => absurd hx (List.not_mem_nil x)) rfl
  · exact h14 wCfg wEnvFailSysEval wAddr wIdPass
      { info := "baseline sysinfo" } { info := "target sysinfo" }
      ["b0"] ["t0"] ["b1"] ["t1"] (wScrapeOf ["b0"]) (wScrapeOf ["t0"])
      (wScrapeOf ["b1"]) (wScrapeOf ["t1"]) wF
      [EvaluatorType.Metrics 0, EvaluatorType.Tps 1, EvaluatorType.Latency 2,
        EvaluatorType.Tps 3] [] 4 "sysinfo eval down"
      rfl (by decide) rfl rfl rfl rfl rfl rfl
      (fun _ _ => ⟨[{ score := 90, explanation := "tps" }], rfl⟩) rfl rfl rfl
      rfl rfl (by intro x hx; fin_cases hx <;> rfl) rfl
  · exact h15 wCfg wEnvFailLatencyEval wAddr wIdPass
      { info := "baseline sysinfo" } { info := "target sysinfo" }
      ["b0"] ["t0"] ["b1"] ["t1"] (wScrapeOf ["b0"]) (wScrapeOf ["t0"])
      (wScrapeOf ["b1"]) (wScrapeOf ["t1"]) wF
      [EvaluatorType.Metrics 0, EvaluatorType.Tps 1]
      [EvaluatorType.Tps 3, EvaluatorType.SystemInformation 4] 2
      "latency eval down"
      rfl (by decide) rfl rfl rfl rfl rfl rfl
      (fun _ _ => ⟨[{ score := 90, explanation := "tps" }], rfl⟩) rfl rfl rfl
      rfl rfl (by intro x hx; fin_cases hx <;> rfl) rfl
  · exact h16 wCfg wEnvFailBsi wAddr
      (RunnerError.MetricCollectorError "baseline sysinfo down") rfl
      (EvaluationSummary.fromResults wIdPass)

/-- Claim C6 (amended): when the identity evaluation succeeds with every
finding at the maximum score and every subsequent external call
succeeds, `run` calls the target node's source exactly three times —
once for system information and twice for metrics. -/
theorem C6_three_target_calls (r : BlockingRunner) (env : Env)
    (addr : NodeAddress) (idevals : List Evaluation)
    (bsi tsi : SystemInformation) (lb1 lt1 lb2 lt2 : List String)
    (pb1 pt1 pb2 pt2 : Scrape) (F : EvaluatorType → List Evaluation)
    (hid : env.node_identity_eval (dinput r addr) = Except.ok idevals)
    (hpass : ∀ ev ∈ idevals, ev.score = 100)
    (hbs : env.baseline_system_information = Except.ok bsi)
    (hts : env.target_system_information = Except.ok tsi)
    (hbm0 : env.baseline_metrics 0 = Except.ok lb1)
    (htm0 : env.target_metrics 0 = Except.ok lt1)
    (hpb1 : env.parse_metrics lb1 = Except.ok pb1)
    (hpt1 : env.parse_metrics lt1 = Except.ok pt1)
    (htpsOk : ∀ tid, r.evaluators.findSome? tpsOf = some tid →
      ∃ ftps, env.tps_eval tid (dinput r addr) = Except.ok ftps)
    (hbm1 : env.baseline_metrics 1 = Except.ok lb2)
    (htm1 : env.target_metrics 1 = Except.ok lt2)
    (hpb2 : env.parse_metrics lb2 = Except.ok pb2)
    (hpt2 : env.parse_metrics lt2 = Except.ok pt2)
    (hloop : ∀ e ∈ r.evaluators,
      loopFindings env (minputOf pb1 pt1 pb2 pt2) (sinputOf bsi tsi)
        (dinput r addr) e = Except.ok (F e)) :
    countTargetFetches (run r env addr).2 = 3 := by
  rcases hf : r.evaluators.findSome? tpsOf with _ | tid
  · rw [run_spec_no_tps r env addr idevals bsi tsi lb1 lt1 lb2 lt2
      pb1 pt1 pb2 pt2 F hid hpass hbs hts hbm0 htm0 hpb1 hpt1 hf
      hbm1 htm1 hpb2 hpt2 hloop]
    simp only [countTargetFetches, phase1Trace, tailTrace, List.countP_append,
      List.countP_cons, List.countP_nil]
    rw [loopTrace_countP env isTargetFetch (fun _ => rfl) (fun _ => rfl)
      (fun _ => rfl)]
    simp [isTargetFetch]
  · obtain ⟨ftps, htps⟩ := htpsOk tid hf
    rw [run_spec_with_tps r env addr idevals bsi tsi lb1 lt1 lb2 lt2
      pb1 pt1 pb2 pt2 tid ftps F hid hpass hbs hts hbm0 htm0 hpb1 hpt1 hf
      htps hbm1 htm1 hpb2 hpt2 hloop]
    simp only [countTargetFetches, phase1Trace, tailTrace, List.countP_append,
      List.countP_cons, List.countP_nil]
    rw [loopTrace_countP env isTargetFetch (fun _ => rfl) (fun _ => rfl)
      (fun _ => rfl)]
    simp [isTargetFetch]

/-- Counterexample to C6 as stated: a run whose identity findings all
score the maximum but whose baseline system-information fetch fails
calls the target node's source zero times, not at least three. -/
theorem C6_counterexample :
    wEnvFailBsi.node_identity_eval (dinput wCfg wAddr) = Except.ok wIdPass
    ∧ (∀ ev ∈ wIdPass, ev.score = 100)
    ∧ countTargetFetches (run wCfg wEnvFailBsi wAddr).2 = 0 :=
  ⟨rfl, by decide, rfl⟩

/-- Witness for the amended C6 at the concrete all-success environment. -/
theorem C6_three_target_calls_witness :
    countTargetFetches (run wCfg wEnv wAddr).2 = 3 :=
  C6_three_target_calls wCfg wEnv wAddr wIdPass
    { info := "baseline sysinfo" } { info := "target sysinfo" }
    ["b0"] ["t0"] ["b1"] ["t1"]
    (wScrapeOf ["b0"]) (wScrapeOf ["t0"]) (wScrapeOf ["b1"]) (wScrapeOf ["t1"])
    wF rfl (by decide) rfl rfl rfl rfl rfl rfl
    (fun tid _ => ⟨[{ score := 90, explanation := "tps" }], rfl⟩)
    rfl rfl rfl rfl
    (by intro e he; fin_cases he <;> rfl)

/-- Claim C7: a raw-fetch failure and a parse failure surface as
distinguishable error kinds (`MetricCollectorError` versus
`ParseMetricsError`), and a parse failure on either metrics round,
either side, aborts the run with the parse-failure kind and yields no
summary. -/
theorem C7_parse_failure_aborts :
    (∀ a b : String,
      RunnerError.ParseMetricsError a ≠ RunnerError.MetricCollectorError b)
    ∧ (∀ (r : BlockingRunner) (env : Env) (addr : NodeAddress)
        (idevals : List Evaluation) (bsi tsi : SystemInformation) (e : String),
        env.node_identity_eval (dinput r addr) = Except.ok idevals →
        (∀ ev ∈ idevals, ev.score = 100) →
        env.baseline_system_information = Except.ok bsi →
        env.target_system_information = Except.ok tsi →
        env.baseline_metrics 0 = Except.error e →
        (run r env addr).1 = Except.error (RunnerError.MetricCollectorError e))
    ∧ (∀ (r : BlockingRunner) (env : Env) (addr : NodeAddress)
        (idevals : List Evaluation) (bsi tsi : SystemInformation)
        (lb1 lt1 : List String) (e : String),
        env.node_identity_eval (dinput r addr) = Except.ok idevals →
        (∀ ev ∈ idevals, ev.score = 100) →
        env.baseline_system_information = Except.ok bsi →
        env.target_system_information = Except.ok tsi →
        env.baseline_metrics 0 = Except.ok lb1 →
        env.target_metrics 0 = Except.ok lt1 →
        env.parse_metrics lb1 = Except.error e →
        (run r env addr).1 = Except.error (RunnerError.ParseMetricsError e))
    ∧ (∀ (r : BlockingRunner) (env : Env) (addr : NodeAddress)
        (idevals : List Evaluation) (bsi tsi : SystemInformation)
        (lb1 lt1 : List String) (pb1 : Scrape) (e : String),
        env.node_identity_eval (dinput r addr) = Except.ok idevals →
        (∀ ev ∈ idevals, ev.score = 100) →
        env.baseline_system_information = Except.ok bsi →
        env.target_system_information = Except.ok tsi →
        env.baseline_metrics 0 = Except.ok lb1 →
        env.target_metrics 0 = Except.ok lt1 →
        env.parse_metrics lb1 = Except.ok pb1 →
        env.parse_metrics lt1 = Except.error e →
        (run r env addr).1 = Except.error (RunnerError.ParseMetricsError e))
    ∧ (∀ (r : BlockingRunner) (env : Env) (addr : NodeAddress)
        (idevals : List Evaluation) (bsi tsi : SystemInformation)
        (lb1 lt1 lb2 lt2 : List String) (pb1 pt1 : Scrape) (e : String),
        env.node_identity_eval (dinput r addr) = Except.ok idevals →
        (∀ ev ∈ idevals, ev.score = 100) →
        env.baseline_system_information = Except.ok bsi →
        env.target_system_information = Except.ok tsi →
        env.baseline_metrics 0 = Except.ok lb1 →
        env.target_metrics 0 = Except.ok lt1 →
        env.parse_metrics lb1 = Except.ok pb1 →
        env.parse_metrics lt1 = Except.ok pt1 →
        r.evaluators.findSome? tpsOf = none →
        env.baseline_metrics 1 = Except.ok lb2 →
        env.target_metrics 1 = Except.ok lt2 →
        env.parse_metrics lb2 = Except.error e →
        (run r env addr).1 = Except.error (RunnerError.ParseMetricsError e))
    ∧ (∀ (r : BlockingRunner) (env : Env) (addr : NodeAddress)
        (idevals : List Evaluation) (bsi tsi : SystemInformation)
        (lb1 lt1 lb2 lt2 : List String) (pb1 pt1 pb2 : Scrape) (e : String),
        env.node_identity_eval (dinput r addr) = Except.ok idevals →
        (∀ ev ∈ idevals, ev.score = 100) →
        env.baseline_system_information = Except.ok bsi →
        env.target_system_information = Except.ok tsi →
        env.baseline_metrics 0 = Except.ok lb1 →
        env.target_metrics 0 = Except.ok lt1 →
        env.parse_metrics lb1 = Except.ok pb1 →
        env.parse_metrics lt1 = Except.ok pt1 →
        r.evaluators.findSome? tpsOf = none →
        env.baseline_metrics 1 = Except.ok lb2 →
        env.target_metrics 1 = Except.ok lt2 →
        env.parse_metrics lb2 = Except.ok pb2 →
        env.parse_metrics lt2 = Except.error e →
        (run r env addr).1 = Except.error (RunnerError.ParseMetricsError e)) := by
  refine ⟨fun a b h => RunnerError.noConfusion h, ?_, ?_, ?_, ?_, ?_⟩
  · intro r env addr idevals bsi tsi e hid hpass hbs hts hbm0
    have hany : idevals.any (fun x => x.score != 100) = false := by
      rw [List.any_eq_false]
      intro ev hev
      simp [hpass ev hev]
    simp only [dinput] at hid
    simp [run, hid, hany, hbs, hts, hbm0, collect_metrics_baseline,
      recordEvent, initialRunState, Except.mapError]
  · intro r env addr idevals bsi tsi lb1 lt1 e hid hpass hbs hts hbm0 htm0 hpb1
    have hany : idevals.any (fun x => x.score != 100) = false := by
      rw [List.any_eq_false]
      intro ev hev
      simp [hpass ev hev]
    simp only [dinput] at hid
    simp [run, hid, hany, hbs, hts, hbm0, htm0, hpb1, collect_metrics_baseline,
      collect_metrics_target, parse_response, recordEvent, initialRunState,
      Except.mapError]
  · intro r env addr idevals bsi tsi lb1 lt1 pb1 e hid hpass hbs hts hbm0 htm0
      hpb1 hpt1
    have hany : idevals.any (fun x => x.score != 100) = false := by
      rw [List.any_eq_false]
      intro ev hev
      simp [hpass ev hev]
    simp only [dinput] at hid
    simp [run, hid, hany, hbs, hts, hbm0, htm0, hpb1, hpt1,
      collect_metrics_baseline, collect_metrics_target, parse_response,
      recordEvent, initialRunState, Except.mapError]
  · intro r env addr idevals bsi tsi lb1 lt1 lb2 lt2 pb1 pt1 e hid hpass hbs
      hts hbm0 htm0 hpb1 hpt1 hfind hbm1 htm1 hpb2
    have hany : idevals.any (fun x => x.score != 100) = false := by
      rw [List.any_eq_false]
      intro ev hev
      simp [hpass ev hev]
    simp only [dinput] at hid
    simp [run, hid, hany, hbs, hts, hbm0, htm0, hpb1, hpt1, hfind, hbm1, htm1,
      hpb2, collect_metrics_baseline, collect_metrics_target, parse_response,
      recordEvent, initialRunState, Except.mapError, run_after_tps, sleep_until]
  · intro r env addr idevals bsi tsi lb1 lt1 lb2 lt2 pb1 pt1 pb2 e hid hpass
      hbs hts hbm0 htm0 hpb1 hpt1 hfind hbm1 htm1 hpb2 hpt2
    have hany : idevals.any (fun x => x.score != 100) = false := by
      rw [List.any_eq_false]
      intro ev hev
      simp [hpass ev hev]
    simp only [dinput] at hid
    simp [run, hid, hany, hbs, hts, hbm0, htm0, hpb1, hpt1, hfind, hbm1, htm1,
      hpb2, hpt2, collect_metrics_baseline, collect_metrics_target,
      parse_response, recordEvent, initialRunState, Except.mapError,
      run_after_tps, sleep_until]

/-- Witness for C7: concrete runs failing on a first-round fetch and on
each of the four parse spots, each surfacing its own error kind. -/
theorem C7_parse_failure_aborts_witness :
    RunnerError.ParseMetricsError "x" ≠ RunnerError.MetricCollectorError "x"
    ∧ (run wCfg wEnvFailFetchB1 wAddr).1
      = Except.error (RunnerError.MetricCollectorError "baseline fetch down")
    ∧ (run wCfg wEnvParseB1 wAddr).1
      = Except.error (RunnerError.ParseMetricsError "bad b0")
    ∧ (run wCfg wEnvParseT1 wAddr).1
      = Except.error (RunnerError.ParseMetricsError "bad t0")
    ∧ (run wCfgNoTps wEnvParseB2 wAddr).1
      = Except.error (RunnerError.ParseMetricsError "bad b1")
    ∧ (run wCfgNoTps wEnvParseT2 wAddr).1
      = Except.error (RunnerError.ParseMetricsError "bad t1") := by
  have h := C7_parse_failure_aborts
  refine ⟨h.1 "x" "x", ?_, ?_, ?_, ?_, ?_⟩
  · exact h.2.1 wCfg wEnvFailFetchB1 wAddr wIdPass
      { info := "baseline sysinfo" } { info := "target sysinfo" }
      "baseline fetch down" rfl (by decide) rfl rfl rfl
  · exact h.2.2.1 wCfg wEnvParseB1 wAddr wIdPass
      { info := "baseline sysinfo" } { info := "target sysinfo" }
      ["b0"] ["t0"] "bad b0" rfl (by decide) rfl rfl rfl rfl rfl
  · exact h.2.2.2.1 wCfg wEnvParseT1 wAddr wIdPass
      { info := "baseline sysinfo" } { info := "target sysinfo" }
      ["b0"] ["t0"] (wScrapeOf ["b0"]) "bad t0" rfl (by decide) rfl rfl rfl
      rfl rfl rfl
  · exact h.2.2.2.2.1 wCfgNoTps wEnvParseB2 wAddr wIdPass
      { info := "baseline sysinfo" } { info := "target sysinfo" }
      ["b0"] ["t0"] ["b1"] ["t1"] (wScrapeOf ["b0"]) (wScrapeOf ["t0"])
      "bad b1" rfl (by decide) rfl rfl rfl rfl rfl rfl rfl rfl rfl rfl
  · exact h.2.2.2.2.2 wCfgNoTps wEnvParseT2 wAddr wIdPass
      { info := "baseline sysinfo" } { info := "target sysinfo" }
      ["b0"] ["t0"] ["b1"] ["t1"] (wScrapeOf ["b0"]) (wScrapeOf ["t0"])
      (wScrapeOf ["b1"]) "bad t1" rfl (by decide) rfl rfl rfl rfl rfl rfl rfl
      rfl rfl rfl rfl

/-- Claim C8: when the identity evaluation succeeds with zero findings,
the short-circuit check is vacuously passed and the run proceeds to the
full pipeline (the baseline system-information fetch occurs), and on
success the summary carries an empty identity contribution at its
head. -/
theorem C8_empty_identity_passes (r : BlockingRunner) (env : Env)
    (addr : NodeAddress) (bsi tsi : SystemInformation)
    (lb1 lt1 lb2 lt2 : List String) (pb1 pt1 pb2 pt2 : Scrape)
    (F : EvaluatorType → List Evaluation)
    (hid : env.node_identity_eval (dinput r addr) = Except.ok [])
    (hbs : env.baseline_system_information = Except.ok bsi)
    (hts : env.target_system_information = Except.ok tsi)
    (hbm0 : env.baseline_metrics 0 = Except.ok lb1)
    (htm0 : env.target_metrics 0 = Except.ok lt1)
    (hpb1 : env.parse_metrics lb1 = Except.ok pb1)
    (hpt1 : env.parse_metrics lt1 = Except.ok pt1)
    (hbm1 : env.baseline_metrics 1 = Except.ok lb2)
    (htm1 : env.target_metrics 1 = Except.ok lt2)
    (hpb2 : env.parse_metrics lb2 = Except.ok pb2)
    (hpt2 : env.parse_metrics lt2 = Except.ok pt2)
    (hloop : ∀ e ∈ r.evaluators,
      loopFindings env (minputOf pb1 pt1 pb2 pt2) (sinputOf bsi tsi)
        (dinput r addr) e = Except.ok (F e)) :
    (∀ tid ftps, r.evaluators.findSome? tpsOf = some tid →
        env.tps_eval tid (dinput r addr) = Except.ok ftps →
        (run r env addr).1 = Except.ok (EvaluationSummary.fromResults
          ([] ++ ftps ++ r.evaluators.flatMap F))
        ∧ Event.collectSystemInformation Side.baseline
            ∈ events (run r env addr).2)
    ∧ (r.evaluators.findSome? tpsOf = none →
        (run r env addr).1 = Except.ok (EvaluationSummary.fromResults
          ([] ++ r.evaluators.flatMap F))
        ∧ Event.collectSystemInformation Side.baseline
            ∈ events (run r env addr).2) := by
  have hpass : ∀ ev ∈ ([] : List Evaluation), ev.score = 100 := by simp
  constructor
  · intro tid ftps hfind htps
    have h := run_spec_with_tps r env addr [] bsi tsi lb1 lt1 lb2 lt2
      pb1 pt1 pb2 pt2 tid ftps F hid hpass hbs hts hbm0 htm0 hpb1 hpt1 hfind
      htps hbm1 htm1 hpb2 hpt2 hloop
    refine ⟨by rw [h], ?_⟩
    rw [h]
    simp [events, phase1Trace]
  · intro hfind
    have h := run_spec_no_tps r env addr [] bsi tsi lb1 lt1 lb2 lt2
      pb1 pt1 pb2 pt2 F hid hpass hbs hts hbm0 htm0 hpb1 hpt1 hfind
      hbm1 htm1 hpb2 hpt2 hloop
    refine ⟨by rw [h], ?_⟩
    rw [h]
    simp [events, phase1Trace]

/-- Witness for C8 at the environment whose identity evaluation returns
zero findings. -/
theorem C8_empty_identity_passes_witness :
    (run wCfg wEnvIdEmpty wAddr).1
      = Except.ok (EvaluationSummary.fromResults
          ([] ++ [{ score := 90, explanation := "tps" }]
            ++ wCfg.evaluators.flatMap wF))
    ∧ Event.collectSystemInformation Side.baseline
        ∈ events (run wCfg wEnvIdEmpty wAddr).2 := by
  have h := C8_empty_identity_passes wCfg wEnvIdEmpty wAddr
    { info := "baseline sysinfo" } { info := "target sysinfo" }
    ["b0"] ["t0"] ["b1"] ["t1"]
    (wScrapeOf ["b0"]) (wScrapeOf ["t0"]) (wScrapeOf ["b1"]) (wScrapeOf ["t1"])
    wF rfl rfl rfl rfl rfl rfl rfl rfl rfl rfl rfl
    (by intro e he; fin_cases he <;> rfl)
  exact h.1 1 [{ score := 90, explanation := "tps" }] rfl rfl

/-- Claim C10 (amended): with an empty configured evaluator list, a
passing identity gate and all external calls succeeding, the run still
performs both system-information fetches, both metrics rounds with both
parses, and the timed wait, and returns a successful summary holding
exactly the identity findings. -/
theorem C10_empty_evaluator_list (r : BlockingRunner) (env : Env)
    (addr : NodeAddress) (idevals : List Evaluation)
    (bsi tsi : SystemInformation) (lb1 lt1 lb2 lt2 : List String)
    (pb1 pt1 pb2 pt2 : Scrape)
    (hempty : r.evaluators = [])
    (hid : env.node_identity_eval (dinput r addr) = Except.ok idevals)
    (hpass : ∀ ev ∈ idevals, ev.score = 100)
    (hbs : env.baseline_system_information = Except.ok bsi)
    (hts : env.target_system_information = Except.ok tsi)
    (hbm0 : env.baseline_metrics 0 = Except.ok lb1)
    (htm0 : env.target_metrics 0 = Except.ok lt1)
    (hpb1 : env.parse_metrics lb1 = Except.ok pb1)
    (hpt1 : env.parse_metrics lt1 = Except.ok pt1)
    (hbm1 : env.baseline_metrics 1 = Except.ok lb2)
    (htm1 : env.target_metrics 1 = Except.ok lt2)
    (hpb2 : env.parse_metrics lb2 = Except.ok pb2)
    (hpt2 : env.parse_metrics lt2 = Except.ok pt2) :
    (run r env addr).1 = Except.ok (EvaluationSummary.fromResults idevals)
    ∧ events (run r env addr).2
      = [Event.evaluateNodeIdentity,
         Event.collectSystemInformation Side.baseline,
         Event.collectSystemInformation Side.target,
         Event.collectMetrics Side.baseline,
         Event.collectMetrics Side.target,
         Event.parseMetrics Side.baseline,
         Event.parseMetrics Side.target,
         Event.sleepUntil (phase1End env + r.args.metrics_fetch_delay_secs),
         Event.collectMetrics Side.baseline,
         Event.collectMetrics Side.target,
         Event.parseMetrics Side.baseline,
         Event.parseMetrics Side.target] := by
  have hfind : r.evaluators.findSome? tpsOf = none := by
    rw [hempty]
    rfl
  have hloop : ∀ e ∈ r.evaluators,
      loopFindings env (minputOf pb1 pt1 pb2 pt2) (sinputOf bsi tsi)
        (dinput r addr) e = Except.ok ((fun _ => []) e) := by
    rw [hempty]
    simp
  have h := run_spec_no_tps r env addr idevals bsi tsi lb1 lt1 lb2 lt2
    pb1 pt1 pb2 pt2 (fun _ => []) hid hpass hbs hts hbm0 htm0 hpb1 hpt1 hfind
    hbm1 htm1 hpb2 hpt2 hloop
  constructor
  · rw [h]
    simp [hempty]
  · rw [h]
    simp [events, phase1Trace, tailTrace, hempty, loopTrace]

/-- Counterexample to C10 as stated: with an empty evaluator list and a
passing identity gate, a failing baseline system-information fetch
makes the run error out after a single fetch, so neither metrics round
happens and no successful summary is returned. -/
theorem C10_counterexample :
    wCfgEmpty.evaluators = []
    ∧ wEnvFailBsi.node_identity_eval (dinput wCfgEmpty wAddr) = Except.ok wIdPass
    ∧ (∀ ev ∈ wIdPass, ev.score = 100)
    ∧ (run wCfgEmpty wEnvFailBsi wAddr).1
      = Except.error (RunnerError.MetricCollectorError "baseline sysinfo down")
    ∧ (run wCfgEmpty wEnvFailBsi wAddr).2.trace.countP
        (fun en => isFetch en.event) = 1 :=
  ⟨rfl, rfl, by decide, rfl, rfl⟩

/-- Witness for the amended C10 at the all-success environment with an
empty evaluator list. -/
theorem C10_empty_evaluator_list_witness :
    (run wCfgEmpty wEnv wAddr).1
      = Except.ok (EvaluationSummary.fromResults wIdPass)
    ∧ events (run wCfgEmpty wEnv wAddr).2
      = [Event.evaluateNodeIdentity,
         Event.collectSystemInformation Side.baseline,
         Event.collectSystemInformation Side.target,
         Event.collectMetrics Side.baseline,
         Event.collectMetrics Side.target,
         Event.parseMetrics Side.baseline,
         Event.parseMetrics Side.target,
         Event.sleepUntil (phase1End wEnv + wCfgEmpty.args.metrics_fetch_delay_secs),
         Event.collectMetrics Side.baseline,
         Event.collectMetrics Side.target,
         Event.parseMetrics Side.baseline,
         Event.parseMetrics Side.target] :=
  C10_empty_evaluator_list wCfgEmpty wEnv wAddr wIdPass
    { info := "baseline sysinfo" } { info := "target sysinfo" }
    ["b0"] ["t0"] ["b1"] ["t1"]
    (wScrapeOf ["b0"]) (wScrapeOf ["t0"]) (wScrapeOf ["b1"]) (wScrapeOf ["t1"])
    rfl rfl (by decide) rfl rfl rfl rfl rfl rfl rfl rfl rfl rfl

/-- Recording a non-Tps event leaves the Tps entries of the trace
unchanged. -/
theorem recordEvent_tps_filter (env : Env) (ev : Event)
    (hev : isTpsEvent ev = false) (s : RunState) :
    ((recordEvent env ev s).trace.filter (fun en => isTpsEvent en.event))
      = s.trace.filter (fun en => isTpsEvent en.event) := by
  simp [recordEvent, List.filter_append, hev]

/-- The final evaluator loop never invokes the Tps evaluator: whatever
the collaborators answer, the Tps entries of the trace are unchanged. -/
theorem runEvaluators_tps_filter (env : Env) (m : MetricsEvaluatorInput)
    (si : SystemInformationEvaluatorInput) (din : DirectEvaluatorInput) :
    ∀ (l : List EvaluatorType) (s : RunState),
      ((runEvaluators env m si din l s).2.trace.filter
          (fun en => isTpsEvent en.event))
        = s.trace.filter (fun en => isTpsEvent en.event) := by
  intro l
  induction l with
  | nil =>
    intro s
    simp [runEvaluators]
  | cons e rest ih =>
    intro s
    cases e with
    | Tps id =>
      rcases hr : runEvaluators env m si din rest s with ⟨res, s2⟩
      have hih := ih s
      rw [hr] at hih
      cases res with
      | error err =>
        simp only [runEvaluators, hr]
        exact hih
      | ok more =>
        simp only [runEvaluators, hr]
        exact hih
    | Metrics id =>
      rcases he : env.metrics_eval id m with err | more
      · simp only [runEvaluators, he]
        exact recordEvent_tps_filter env (Event.evaluateMetrics id) rfl s
      · rcases hr : runEvaluators env m si din rest
            (recordEvent env (Event.evaluateMetrics id) s) with ⟨res, s2⟩
        have hih := ih (recordEvent env (Event.evaluateMetrics id) s)
        rw [hr] at hih
        cases res with
        | error err =>
          simp only [runEvaluators, he, hr]
          rw [hih]
          exact recordEvent_tps_filter env (Event.evaluateMetrics id) rfl s
        | ok more2 =>
          simp only [runEvaluators, he, hr]
          rw [hih]
          exact recordEvent_tps_filter env (Event.evaluateMetrics id) rfl s
    | SystemInformation id =>
      rcases he : env.system_information_eval id si with err | more
      · simp only [runEvaluators, he]
        exact recordEvent_tps_filter env (Event.evaluateSystemInformation id) rfl s
      · rcases hr : runEvaluators env m si din rest
            (recordEvent env (Event.evaluateSystemInformation id) s) with ⟨res, s2⟩
        have hih := ih (recordEvent env (Event.evaluateSystemInformation id) s)
        rw [hr] at hih
        cases res with
        | error err =>
          simp only [runEvaluators, he, hr]
          rw [hih]
          exact recordEvent_tps_filter env (Event.evaluateSystemInformation id) rfl s
        | ok more2 =>
          simp only [runEvaluators, he, hr]
          rw [hih]
          exact recordEvent_tps_filter env (Event.evaluateSystemInformation id) rfl s
    | Latency id =>
      rcases he : env.latency_eval id din with err | more
      · simp only [runEvaluators, he]
        exact recordEvent_tps_filter env (Event.evaluateLatency id) rfl s
      · rcases hr : runEvaluators env m si din rest
            (recordEvent env (Event.evaluateLatency id) s) with ⟨res, s2⟩
        have hih := ih (recordEvent env (Event.evaluateLatency id) s)
        rw [hr] at hih
        cases res with
        | error err =>
          simp only [runEvaluators, he, hr]
          rw [hih]
          exact recordEvent_tps_filter env (Event.evaluateLatency id) rfl s
        | ok more2 =>
          simp only [runEvaluators, he, hr]
          rw [hih]
          exact recordEvent_tps_filter env (Event.evaluateLatency id) rfl s

/-- The tail of the run (wait, second metrics round, final loop) never
invokes the Tps evaluator: whatever the collaborators answer, the Tps
entries of the trace are unchanged. -/
theorem run_after_tps_tps_filter (r : BlockingRunner) (env : Env)
    (din : DirectEvaluatorInput) (bsi tsi : SystemInformation)
    (pb1 pt1 : Scrape) (dl : Nat) (acc : List Evaluation) (s : RunState) :
    ((run_after_tps r env din bsi tsi pb1 pt1 dl acc s).2.trace.filter
        (fun en => isTpsEvent en.event))
      = s.trace.filter (fun en => isTpsEvent en.event) := by
  simp only [run_after_tps, collect_metrics_baseline, collect_metrics_target,
    parse_response, sleep_until, recordEvent, Except.mapError]
  rcases hbm : env.baseline_metrics s.baseline_metrics_calls with e | lb2 <;>
    simp only [hbm]
  · simp [List.filter_append, isTpsEvent]
  · rcases htm : env.target_metrics s.target_metrics_calls with e | lt2 <;>
      simp only [htm]
    · simp [List.filter_append, isTpsEvent]
    · rcases hpb : env.parse_metrics lb2 with e | pb2 <;> simp only [hpb]
      · simp [List.filter_append, isTpsEvent]
      · rcases hpt : env.parse_metrics lt2 with e | pt2 <;> simp only [hpt]
        · simp [List.filter_append, isTpsEvent]
        · split
          next more s14 heq =>
            have h2 := congrArg
              (fun p => ((Prod.snd p).trace.filter
                (fun en => isTpsEvent en.event))) heq
            dsimp only at h2
            rw [runEvaluators_tps_filter] at h2
            dsimp only
            rw [← h2]
            simp [List.filter_append, isTpsEvent]
          next more s14 heq =>
            have h2 := congrArg
              (fun p => ((Prod.snd p).trace.filter
                (fun en => isTpsEvent en.event))) heq
            dsimp only at h2
            rw [runEvaluators_tps_filter] at h2
            dsimp only
            rw [← h2]
            simp [List.filter_append, isTpsEvent]

/-- Claim C9: when the configured list holds a Tps variant (and possibly
more after it), only the first Tps variant in list order can ever be
invoked — on every run, whatever the collaborators answer, at most one
Tps invocation appears in the trace and any Tps invocation is of the
first variant. -/
theorem C9_only_first_tps_invoked (r : BlockingRunner) (env : Env)
    (addr : NodeAddress) (pre post : List EvaluatorType) (tid : Nat)
    (hsplit : r.evaluators = pre ++ EvaluatorType.Tps tid :: post)
    (hpre : ∀ e ∈ pre, tpsOf e = none) :
    countTpsEvents (run r env addr).2 ≤ 1
    ∧ ∀ en ∈ (run r env addr).2.trace, ∀ i,
        en.event = Event.evaluateTps i → i = tid := by
  have hfind : r.evaluators.findSome? tpsOf = some tid := by
    rw [hsplit]
    exact findSome?_tps_first pre post tid hpre
  have hkey : (((run r env addr).2.trace.filter
        (fun en => isTpsEvent en.event)).length ≤ 1)
      ∧ ∀ en ∈ (run r env addr).2.trace.filter
          (fun en => isTpsEvent en.event),
          en.event = Event.evaluateTps tid := by
    rcases hid : env.node_identity_eval
        { baseline_node_information := r.baseline_node_information,
          target_node_address := addr } with e | idevals
    · simp [run, hid, recordEvent, initialRunState, isTpsEvent]
    · cases hany : idevals.any (fun ev => ev.score != 100) with
      | true =>
        simp [run, hid, hany, recordEvent, initialRunState, isTpsEvent]
      | false =>
        rcases hbs : env.baseline_system_information with e | bsi
        · simp [run, hid, hany, hbs, recordEvent, initialRunState, isTpsEvent]
        · rcases hts : env.target_system_information with e | tsi
          · simp [run, hid, hany, hbs, hts, recordEvent, initialRunState,
              isTpsEvent]
          · rcases hbm0 : env.baseline_metrics 0 with e | lb1
            · simp [run, hid, hany, hbs, hts, hbm0, collect_metrics_baseline,
                recordEvent, initialRunState, Except.mapError, isTpsEvent]
            · rcases htm0 : env.target_metrics 0 with e | lt1
              · simp [run, hid, hany, hbs, hts, hbm0, htm0,
                  collect_metrics_baseline, collect_metrics_target,
                  recordEvent, initialRunState, Except.mapError, isTpsEvent]
              · rcases hpb1 : env.parse_metrics lb1 with e | pb1
                · simp [run, hid, hany, hbs, hts, hbm0, htm0, hpb1,
                    collect_metrics_baseline, collect_metrics_target,
                    parse_response, recordEvent, initialRunState,
                    Except.mapError, isTpsEvent]
                · rcases hpt1 : env.parse_metrics lt1 with e | pt1
                  · simp [run, hid, hany, hbs, hts, hbm0, htm0, hpb1, hpt1,
                      collect_metrics_baseline, collect_metrics_target,
                      parse_response, recordEvent, initialRunState,
                      Except.mapError, isTpsEvent]
                  · rcases htps : env.tps_eval tid
                        { baseline_node_information := r.baseline_node_information,
                          target_node_address := addr } with e | ftps
                    · simp [run, hid, hany, hbs, hts, hbm0, htm0, hpb1, hpt1,
                        hfind, htps, collect_metrics_baseline,
                        collect_metrics_target, parse_response, recordEvent,
                        initialRunState, Except.mapError, isTpsEvent]
                    · simp only [run, hid, hany, hbs, hts, hbm0, htm0, hpb1,
                        hpt1, hfind, htps, collect_metrics_baseline,
                        collect_metrics_target, parse_response, recordEvent,
                        initialRunState, Except.mapError, Bool.false_eq_true,
                        if_false, ite_false]
                      rw [run_after_tps_tps_filter]
                      simp [List.filter_append, isTpsEvent]
  constructor
  · rw [countTpsEvents, List.countP_eq_length_filter]
    exact hkey.1
  · intro en hen i hev
    have hq : isTpsEvent en.event = true := by
      rw [hev]
      rfl
    have hmemf : en ∈ (run r env addr).2.trace.filter
        (fun en => isTpsEvent en.event) :=
      List.mem_filter.mpr ⟨hen, hq⟩
    have h2 := hkey.2 en hmemf
    rw [hev] at h2
    simpa using h2

/-- Witness for C9 at the concrete configuration holding two Tps
variants (ids 1 and 3): the theorem applies with the split around the
first one. -/
theorem C9_only_first_tps_invoked_witness :
    countTpsEvents (run wCfg wEnv wAddr).2 ≤ 1 :=
  (C9_only_first_tps_invoked wCfg wEnv wAddr [EvaluatorType.Metrics 0]
    [EvaluatorType.Latency 2, EvaluatorType.Tps 3,
      EvaluatorType.SystemInformation 4] 1 rfl
    (by intro e he; fin_cases he; rfl)).1

end NodeChecker
